import Mathlib

/-!
# ESP32 navigation HUD: display driver and icon pipeline

A shallow embedding of `src/esp32/lcd.cpp` (the ST7789 driver `SimpleSt7789`)
and of the icon part of `src/esp32/ui.h` (`convert1BitBitmapToRgb565` and the
icon functions of namespace `Data`), followed by theorems about them.

Conventions of the embedding
* Machine integers are natural numbers; a conversion to `uint8_t`, `uint16_t`
  or `uint32_t` is written as an explicit `% 2^8`, `% 2^16`, `% 2^32`.
* A `const uint8_t*` argument is the list of bytes found at that address; a
  nullable pointer is an `Option`.  Reading `n` bytes through a pointer is
  `readBytes`.
* Calls into the Arduino core (SPI, GPIO, LEDC, delay) are recorded, in
  program order, as a list of `BusEvent`.
* The file system is an association list from path to contents, in
  enumeration order, plus two flags telling whether `FS.open` succeeds.
-/

/-! ## Shared helpers -/

/-- The `n` bytes read through a pointer whose target holds the bytes `p`
(`p[0] .. p[n-1]`); a position past the end of `p` reads as `0`. -/
def readBytes (p : List Nat) (n : Nat) : List Nat :=
  (List.range n).map (fun i => p.getD i 0)

/-- C `memcpy(dst, src, n)` on byte arrays: the first `n` bytes of `dst` are
replaced by the `n` bytes read through `src`. -/
def memcpy (dst src : List Nat) (n : Nat) : List Nat :=
  readBytes src n ++ dst.drop n

/-- C `memset(dst, v, sizeof dst)` on a buffer held as 16-bit elements: every
byte becomes `v`, so every element becomes `v * 256 + v`. -/
def memset16 (dst : List Nat) (v : Nat) : List Nat :=
  List.replicate dst.length ((v % 256) * 256 + v % 256)

/-! ## The display driver (`src/esp32/lcd.cpp`) -/

/-- One call into the Arduino core made by the driver. -/
inductive BusEvent where
  | beginTransaction
  | endTransaction
  | pinModeOutput (pin : Nat)
  | digitalWrite (pin : Nat) (high : Bool)
  | transfer (byte : Nat)
  | transferBytes (bytes : List Nat)
  | ledcAttach (pin freq resolution : Nat)
  | ledcWrite (pin duty : Nat)
  | delay (ms : Nat)
  deriving DecidableEq, Repr

/-- The constants of `registers.h`, which is not part of the sources at hand:
they are parameters of the driver model. -/
structure Registers where
  REG_SLPOUT : Nat
  REG_INVOFF : Nat
  REG_INVON : Nat
  REG_DISPON : Nat
  REG_CASET : Nat
  REG_RASET : Nat
  REG_RAMWR : Nat
  REG_MADCTL : Nat
  REG_COLMOD : Nat
  REG_RAMCTRL : Nat
  REG_PORCTRL : Nat
  REG_GCTRL : Nat
  REG_VCOMS : Nat
  REG_LCMCTRL : Nat
  REG_VDVVRHEN : Nat
  REG_VRHS : Nat
  REG_VDVS : Nat
  REG_FRCTR2 : Nat
  REG_PWCTRL1 : Nat
  REG_PVGAMCTRL : Nat
  REG_NVGAMCTRL : Nat
  MADCTL_MX : Nat
  MADCTL_MY : Nat
  MADCTL_MV : Nat
  MADCTL_RGB : Nat
  deriving DecidableEq, Repr

/-- Modelled from the spec: the enumeration `SimpleSt7789::Rotation` of `lcd.h`
(absent from the sources), "one of four 90-degree-step values".  `other` stands
for a value of the enumeration type that is none of the four enumerators, the
`default:` branch of `setRotation`. -/
inductive Rotation where
  | ROTATION_0
  | ROTATION_90
  | ROTATION_180
  | ROTATION_270
  | other (raw : Nat)
  deriving DecidableEq, Repr

/-- The data members of `SimpleSt7789` that the modelled functions use.  The
SPI handle and settings are left out: they only parametrise the bus calls. -/
structure SimpleSt7789 where
  _width : Nat
  _height : Nat
  _pinCs : Nat
  _pinDc : Nat
  _pinRst : Nat
  _pinBacklight : Nat
  _rotation : Rotation
  _xOffset : Nat
  _yOffset : Nat
  deriving DecidableEq, Repr

/-- Arduino core macro `constrain(amt, low, high)`, outside the repository:
`amt < low ? low : (amt > high ? high : amt)`. -/
def Arduino.constrain (amt low high : Nat) : Nat :=
  if amt < low then low else if amt > high then high else amt

/-- Arduino core function `map(x, in_min, in_max, out_min, out_max)`, outside
the repository, for arguments with `in_min ≤ x` and `out_min ≤ out_max`:
`(x - in_min) * (out_max - out_min) / (in_max - in_min) + out_min`. -/
def Arduino.map (x in_min in_max out_min out_max : Nat) : Nat :=
  (x - in_min) * (out_max - out_min) / (in_max - in_min) + out_min

namespace SimpleSt7789

/-- The chunk size `CHUNK` of `sendCommand` and `sendData`. -/
def CHUNK : Nat := 4096

/-- The loop `while (pos < size) { n = min(CHUNK, size - pos);
transferBytes(data + pos, nullptr, n); pos += n; }` shared by `sendCommand`
and `sendData`. -/
def transferLoop (data : List Nat) (size pos : Nat) : List BusEvent :=
  if h : pos < size then
    let n := if size - pos > CHUNK then CHUNK else size - pos
    have : size - (pos + n) < size - pos := by
      have hn : 0 < n := by
        simp only [n, CHUNK]
        split <;> omega
      omega
    BusEvent.transferBytes (readBytes (data.drop pos) n) :: transferLoop data size (pos + n)
  else
    []
termination_by size - pos

/-- `SimpleSt7789::sendCommand(command, data, size)`. -/
def sendCommand (d : SimpleSt7789) (command : Nat) (data : Option (List Nat)) (size : Nat) :
    List BusEvent :=
  [BusEvent.beginTransaction,
   BusEvent.digitalWrite d._pinCs false,
   BusEvent.digitalWrite d._pinDc false,
   BusEvent.transfer (command % 2 ^ 8)]
  ++ (match data with
      | some bytes =>
        if size ≠ 0 then
          BusEvent.digitalWrite d._pinDc true :: transferLoop bytes size 0
        else []
      | none => [])
  ++ [BusEvent.digitalWrite d._pinCs true,
      BusEvent.endTransaction]

/-- `SimpleSt7789::sendData(data, size)`. -/
def sendData (d : SimpleSt7789) (data : List Nat) (size : Nat) : List BusEvent :=
  [BusEvent.beginTransaction,
   BusEvent.digitalWrite d._pinCs false,
   BusEvent.digitalWrite d._pinDc true]
  ++ transferLoop data size 0
  ++ [BusEvent.digitalWrite d._pinCs true,
      BusEvent.endTransaction]

/-- The control byte computed by the `switch` of `setRotation`, stored in a
`uint8_t`. -/
def madctlByte (R : Registers) : Rotation → Nat
  | .ROTATION_0 => (R.MADCTL_MX ||| R.MADCTL_MY ||| R.MADCTL_RGB) % 2 ^ 8
  | .ROTATION_90 => (R.MADCTL_MY ||| R.MADCTL_MV ||| R.MADCTL_RGB) % 2 ^ 8
  | .ROTATION_180 => R.MADCTL_RGB % 2 ^ 8
  | .ROTATION_270 => (R.MADCTL_MX ||| R.MADCTL_MV ||| R.MADCTL_RGB) % 2 ^ 8
  | .other _ => R.MADCTL_RGB % 2 ^ 8

/-- `SimpleSt7789::setRotation(rotation)`: the new driver state and the bus
calls made. -/
def setRotation (R : Registers) (d : SimpleSt7789) (rotation : Rotation) :
    SimpleSt7789 × List BusEvent :=
  let d1 := { d with _rotation := rotation }
  let madctl := madctlByte R rotation
  (d1, sendCommand d1 R.REG_MADCTL (some [madctl]) 1)

/-- `SimpleSt7789::setOffset(xOffset, yOffset)`. -/
def setOffset (d : SimpleSt7789) (xOffset yOffset : Nat) : SimpleSt7789 :=
  { d with _xOffset := xOffset % 2 ^ 16, _yOffset := yOffset % 2 ^ 16 }

/-- `SimpleSt7789::setAddrWindow(x1, y1, x2, y2)`. -/
def setAddrWindow (R : Registers) (d : SimpleSt7789) (x1 y1 x2 y2 : Nat) : List BusEvent :=
  let ox1 := (x1 + d._xOffset) % 2 ^ 16
  let ox2 := (x2 + d._xOffset) % 2 ^ 16
  let oy1 := (y1 + d._yOffset) % 2 ^ 16
  let oy2 := (y2 + d._yOffset) % 2 ^ 16
  let caset := [(ox1 >>> 8) % 2 ^ 8, (ox1 &&& 0xFF) % 2 ^ 8,
                (ox2 >>> 8) % 2 ^ 8, (ox2 &&& 0xFF) % 2 ^ 8]
  let raset := [(oy1 >>> 8) % 2 ^ 8, (oy1 &&& 0xFF) % 2 ^ 8,
                (oy2 >>> 8) % 2 ^ 8, (oy2 &&& 0xFF) % 2 ^ 8]
  sendCommand d R.REG_CASET (some caset) 4
  ++ sendCommand d R.REG_RASET (some raset) 4
  ++ sendCommand d R.REG_RAMWR none 0

/-- The three `uint32_t` lines of `flushWindow`: `width`, `height` and
`numBytes`, for 16-bit arguments. -/
def flushWindowNumBytes (x1 y1 x2 y2 : Nat) : Nat :=
  let width := ((x2 % 2 ^ 32 + 2 ^ 32 - x1 % 2 ^ 32) % 2 ^ 32 + 1) % 2 ^ 32
  let height := ((y2 % 2 ^ 32 + 2 ^ 32 - y1 % 2 ^ 32) % 2 ^ 32 + 1) % 2 ^ 32
  ((width * height) % 2 ^ 32 * 2) % 2 ^ 32

/-- `SimpleSt7789::flushWindow(x1, y1, x2, y2, color)`; `color` is the pixel
buffer seen as bytes. -/
def flushWindow (R : Registers) (d : SimpleSt7789) (x1 y1 x2 y2 : Nat) (color : List Nat) :
    List BusEvent :=
  setAddrWindow R d x1 y1 x2 y2
  ++ sendData d color (flushWindowNumBytes x1 y1 x2 y2)

/-- `SimpleSt7789::reset()`; `(uint8_t)-1`, that is 255, means that no reset
line is configured. -/
def reset (d : SimpleSt7789) : List BusEvent :=
  if d._pinRst = 255 then []
  else
    [BusEvent.digitalWrite d._pinCs false,
     BusEvent.delay 50,
     BusEvent.digitalWrite d._pinRst false,
     BusEvent.delay 50,
     BusEvent.digitalWrite d._pinRst true,
     BusEvent.delay 50]

/-- `SimpleSt7789::setBrightness(percent)` for a `uint8_t` argument; 255 means
that no backlight line is configured. -/
def setBrightness (d : SimpleSt7789) (percent : Nat) : List BusEvent :=
  if d._pinBacklight = 255 then []
  else
    let percent1 := (Arduino.constrain percent 0 100) % 2 ^ 8
    let pwm := (Arduino.map percent1 0 100 0 1023) % 2 ^ 16
    [BusEvent.ledcWrite d._pinBacklight pwm]

/-- Modelled from the spec: `sendCommandFixed(command, {bytes...})` of `lcd.h`
(absent from the sources), which sends a command "verbatim" with its literal
payload bytes: `sendCommand` on the array and its length. -/
def sendCommandFixed (d : SimpleSt7789) (command : Nat) (bytes : List Nat) : List BusEvent :=
  sendCommand d command (some bytes) bytes.length

/-- `SimpleSt7789::init()`: the driver state and the calls made, in order. -/
def init (R : Registers) (d : SimpleSt7789) : SimpleSt7789 × List BusEvent :=
  let t0 :=
    [BusEvent.pinModeOutput d._pinCs, BusEvent.pinModeOutput d._pinDc]
    ++ (if d._pinRst ≠ 255 then [BusEvent.pinModeOutput d._pinRst] else [])
    ++ (if d._pinBacklight ≠ 255 then
          [BusEvent.ledcAttach d._pinBacklight 1000 10, BusEvent.ledcWrite d._pinBacklight 512]
        else [])
    ++ reset d
    ++ sendCommand d R.REG_SLPOUT none 0
    ++ [BusEvent.delay 120]
  let r := setRotation R d d._rotation
  let d1 := r.1
  (d1,
   t0 ++ r.2
   ++ sendCommandFixed d1 R.REG_COLMOD [0x05]
   ++ sendCommandFixed d1 R.REG_RAMCTRL [0x00, 0xE8]
   ++ sendCommandFixed d1 R.REG_PORCTRL [0x0C, 0x0C, 0x00, 0x33, 0x33]
   ++ sendCommandFixed d1 R.REG_GCTRL [0x35]
   ++ sendCommandFixed d1 R.REG_VCOMS [0x35]
   ++ sendCommandFixed d1 R.REG_LCMCTRL [0x2C]
   ++ sendCommandFixed d1 R.REG_VDVVRHEN [0x01]
   ++ sendCommandFixed d1 R.REG_VRHS [0x13]
   ++ sendCommandFixed d1 R.REG_VDVS [0x20]
   ++ sendCommandFixed d1 R.REG_FRCTR2 [0x0F]
   ++ sendCommandFixed d1 R.REG_PWCTRL1 [0xA4, 0xA1]
   ++ sendCommandFixed d1 0xD6 [0xA1]
   ++ sendCommandFixed d1 R.REG_PVGAMCTRL
        [0xF0, 0x00, 0x04, 0x04, 0x04, 0x05, 0x29, 0x33, 0x3E, 0x38, 0x12, 0x12, 0x28, 0x30]
   ++ sendCommandFixed d1 R.REG_NVGAMCTRL
        [0xF0, 0x07, 0x0A, 0x0D, 0x0B, 0x07, 0x28, 0x33, 0x3E, 0x36, 0x14, 0x14, 0x29, 0x32]
   ++ sendCommand d1 R.REG_INVON none 0
   ++ sendCommand d1 R.REG_SLPOUT none 0
   ++ [BusEvent.delay 120]
   ++ sendCommand d1 R.REG_DISPON none 0
   ++ setBrightness d1 100)

end SimpleSt7789

/-- The payload of the command whose opcode was just transferred: the bytes of
the `transferBytes` calls up to the end of the transaction.  An observation on
bus traces, used to state what was sent. -/
def payloadOf : List BusEvent → List Nat
  | [] => []
  | BusEvent.endTransaction :: _ => []
  | BusEvent.transferBytes bytes :: rest => bytes ++ payloadOf rest
  | _ :: rest => payloadOf rest

/-- The commands found in a bus trace, in order: every opcode byte sent with
`transfer`, with its payload.  An observation on bus traces, used to state
what was sent. -/
def commandsOf : List BusEvent → List (Nat × List Nat)
  | [] => []
  | BusEvent.transfer op :: rest => (op, payloadOf rest) :: commandsOf rest
  | _ :: rest => commandsOf rest

/-! ## The 1-bit to RGB565 conversion (`src/esp32/ui.h`) -/

/-- The test `s[(y * width + x) >> 3] & (1 << (7 - (x & 7)))` of
`convert1BitBitmapToRgb565`, converted to `bool`. -/
def pixelOn (s : List Nat) (width y x : Nat) : Bool :=
  (s.getD ((y * width + x) >>> 3) 0 &&& (1 <<< (7 - (x &&& 7)))) != 0

/-- The inner loop `for (x = 0; x < width; x++)` of
`convert1BitBitmapToRgb565` for one row `y`, acting on the destination `d`. -/
def convertRow (s : List Nat) (width y activeColor inactiveColor : Nat) (d : List Nat) :
    List Nat :=
  (List.range width).foldl
    (fun d x => d.set (y * width + x)
      (if pixelOn s width y x then activeColor else inactiveColor)) d

/-- `convert1BitBitmapToRgb565(dst, src, width, height, color, bgColor, invert)`:
the destination, an array of 16-bit pixels, after the call.  The source bytes
are only read. -/
def convert1BitBitmapToRgb565 (dst src : List Nat) (width height color bgColor : Nat)
    (invert : Bool) : List Nat :=
  let activeColor := if invert then bgColor else color
  let inactiveColor := if invert then color else bgColor
  (List.range height).foldl
    (fun d y => convertRow src width y activeColor inactiveColor d) dst

/-- The stores `d[y * width + x] = ...` that the two loops of
`convert1BitBitmapToRgb565` make, in program order: index and value written. -/
def convertStores (src : List Nat) (width height activeColor inactiveColor : Nat) :
    List (Nat × Nat) :=
  ((List.range height).map (fun y =>
    (List.range width).map (fun x =>
      (y * width + x, if pixelOn src width y x then activeColor else inactiveColor)))).flatten

/-- Bit number `i` of a bitmap packed row-major and most-significant-bit-first:
bit `7 - (i mod 8)` of byte `i div 8`.  This follows the specification, not the
code. -/
def bitmapBit (src : List Nat) (i : Nat) : Bool :=
  (src.getD (i / 8) 0).testBit (7 - i % 8)

/-- The conversion as the specification words it: pixel `i = y * width + x` is
`color` when bit `i` of the source is set and `bgColor` otherwise.  This
follows the specification, not the code. -/
def referenceConversion (src : List Nat) (width height color bgColor : Nat) : List Nat :=
  (List.range (width * height)).map (fun i => if bitmapBit src i then color else bgColor)

/-! ## The icon pipeline (`namespace Data` of `src/esp32/ui.h`) -/

/-- `ICON_HEIGHT`. -/
def ICON_HEIGHT : Nat := 64

/-- `ICON_WIDTH`. -/
def ICON_WIDTH : Nat := 64

/-- `ICON_BITMAP_BUFFER_SIZE`, in bytes. -/
def ICON_BITMAP_BUFFER_SIZE : Nat := (ICON_HEIGHT * ICON_WIDTH) / 8

/-- `LV_COLOR_DEPTH` of the LVGL configuration, which is not part of the
sources at hand: 16, the depth of the RGB565 format the icon is shown in. -/
def LV_COLOR_DEPTH : Nat := 16

/-- `ICON_RENDER_BUFFER_SIZE`, in bytes. -/
def ICON_RENDER_BUFFER_SIZE : Nat := ICON_WIDTH * ICON_HEIGHT * (LV_COLOR_DEPTH / 8)

/-- An LVGL colour (`lv_color_t`), 8 bits per channel. -/
structure lv_color_t where
  red : Nat
  green : Nat
  blue : Nat
  deriving DecidableEq, Repr

/-- LVGL `lv_color_make(r, g, b)`, a library function outside the repository. -/
def lv_color_make (r g b : Nat) : lv_color_t :=
  { red := r % 2 ^ 8, green := g % 2 ^ 8, blue := b % 2 ^ 8 }

/-- LVGL `lv_color_to_u16`, a library function outside the repository: the
RGB565 packing of a colour. -/
def lv_color_to_u16 (c : lv_color_t) : Nat :=
  ((c.red &&& 0xF8) <<< 8) + ((c.green &&& 0xFC) <<< 3) + ((c.blue &&& 0xF8) >>> 3)

/-- The SPIFFS file system as the icon cache sees it: the stored files in
enumeration order, whether `FS.open` succeeds for reading and for writing, and
the record of the `file.write` calls made so far (path and bytes). -/
structure FileSystem where
  files : List (String × List Nat)
  openReadOk : Bool
  openWriteOk : Bool
  writes : List (String × List Nat)
  deriving DecidableEq, Repr

/-- The contents of the file stored under `path`, if there is one. -/
def filesLookup : List (String × List Nat) → String → Option (List Nat)
  | [], _ => none
  | (p, c) :: rest, path => if p = path then some c else filesLookup rest path

/-- The stored files after `path` was created or truncated and `content`
written to it. -/
def filesStore : List (String × List Nat) → String → List Nat → List (String × List Nat)
  | [], path, content => [(path, content)]
  | (p, c) :: rest, path, content =>
    if p = path then (path, content) :: rest else (p, c) :: filesStore rest path content

/-- The variables of `namespace Data::details` that the icon functions use,
and the file system.  `iconRenderBuffer` is held as its
`ICON_WIDTH * ICON_HEIGHT` 16-bit pixels; `serial` is what was printed. -/
structure Data.details where
  displayIconHash : String
  receivedIconHash : String
  iconDirty : Bool
  availableIcons : List String
  receivedIconBitmapBuffer : List Nat
  iconBitmapBuffer : List Nat
  iconRenderBuffer : List Nat
  fs : FileSystem
  serial : List String
  deriving DecidableEq, Repr

namespace Data

/-- The array sizes declared in `Data::details`. -/
def details.WF (s : details) : Prop :=
  s.receivedIconBitmapBuffer.length = ICON_BITMAP_BUFFER_SIZE ∧
  s.iconBitmapBuffer.length = ICON_BITMAP_BUFFER_SIZE ∧
  s.iconRenderBuffer.length = ICON_WIDTH * ICON_HEIGHT

instance (s : details) : Decidable s.WF := by
  unfold details.WF
  infer_instance

/-- The file name `String("/") + iconHash + ".bin"` used by `saveIcon` and
`loadIcon`. -/
def iconPath (iconHash : String) : String :=
  "/" ++ iconHash ++ ".bin"

/-- `Data::setIconBuffer(value, length)`. -/
def setIconBuffer (s : details) (value : Option (List Nat)) (length : Nat) : details :=
  match value with
  | none =>
    { s with iconRenderBuffer := memset16 s.iconRenderBuffer 0xFF, iconDirty := true }
  | some v =>
    if length = 0 then
      { s with iconRenderBuffer := memset16 s.iconRenderBuffer 0xFF, iconDirty := true }
    else if length > ICON_BITMAP_BUFFER_SIZE then
      { s with serial := s.serial ++ ["Icon buffer overflow"] }
    else
      { s with
        iconRenderBuffer :=
          convert1BitBitmapToRgb565 s.iconRenderBuffer v ICON_WIDTH ICON_HEIGHT
            (lv_color_to_u16 (lv_color_make 0 0 255))
            (lv_color_to_u16 (lv_color_make 255 255 255)) false,
        iconDirty := true }

/-- `Data::readFile(filename, buffer, bufferSize)`: the returned length and the
buffer after the call. -/
def readFile (fs : FileSystem) (filename : String) (buffer : List Nat) (bufferSize : Nat) :
    Nat × List Nat :=
  if fs.openReadOk = false then (0, buffer)
  else
    match filesLookup fs.files filename with
    | none => (0, buffer)
    | some content =>
      if content.length > bufferSize then (0, buffer)
      else (content.length, content ++ buffer.drop content.length)

/-- `Data::writeFile(filename, buffer, length)`. -/
def writeFile (fs : FileSystem) (filename : String) (buffer : List Nat) (length : Nat) :
    FileSystem :=
  if fs.openWriteOk = false then fs
  else
    { fs with
      files := filesStore fs.files filename (readBytes buffer length),
      writes := fs.writes ++ [(filename, readBytes buffer length)] }

/-- ESP32 Arduino core `pathToFileName`, outside the repository, which
`File::name()` returns: the part of the path after its last `/`. -/
def pathToFileName (path : String) : String :=
  String.mk ((path.data.reverse.takeWhile (fun c => c != '/')).reverse)

/-- The names that `root.openNextFile()` and `file.name()` yield in
`listFiles`, in enumeration order; none when the root cannot be opened. -/
def enumerateNames (fs : FileSystem) : List String :=
  if fs.openReadOk = false then [] else fs.files.map (fun e => pathToFileName e.1)

/-- Arduino `String::endsWith`, outside the repository. -/
def endsWith (name suffix : String) : Bool :=
  suffix.data.isSuffixOf name.data

/-- Arduino `String::substring(left, right)`, outside the repository, for
`left ≤ right`: the characters at positions `left` to `right - 1`. -/
def substring (name : String) (left right : Nat) : String :=
  String.mk ((name.data.take right).drop left)

/-- The body of the `while (file)` loop of `listFiles` for one file name,
acting on `availableIcons`. -/
def listFilesStep (icons : List String) (name : String) : List String :=
  if endsWith name ".bin" then icons ++ [substring name 0 (name.length - 4)] else icons

/-- `Data::listFiles()`. -/
def listFiles (s : details) : details :=
  { s with availableIcons := (enumerateNames s.fs).foldl listFilesStep [] }

/-- `Data::isIconExisted(iconHash)`. -/
def isIconExisted (s : details) (iconHash : String) : Bool :=
  decide (iconHash ∈ s.availableIcons)

/-- `Data::saveIcon(iconHash, buffer)`. -/
def saveIcon (s : details) (iconHash : String) (buffer : List Nat) : details :=
  if isIconExisted s iconHash then s
  else
    { s with
      fs := writeFile s.fs (iconPath iconHash) buffer ICON_BITMAP_BUFFER_SIZE,
      availableIcons := s.availableIcons ++ [iconHash] }

/-- `Data::loadIcon(iconHash)`. -/
def loadIcon (s : details) (iconHash : String) : details :=
  if isIconExisted s iconHash = false then s
  else
    let s1 := { s with
      iconBitmapBuffer :=
        (readFile s.fs (iconPath iconHash) s.iconBitmapBuffer ICON_BITMAP_BUFFER_SIZE).2 }
    setIconBuffer s1 (some s1.iconBitmapBuffer) ICON_BITMAP_BUFFER_SIZE

/-- `Data::setIconHash(value)`. -/
def setIconHash (s : details) (value : String) : details :=
  if value = s.displayIconHash then s
  else
    let s1 := { s with displayIconHash := value }
    if value = "" then setIconBuffer s1 none 0
    else if isIconExisted s1 value then loadIcon s1 value
    else s1

/-- `Data::receiveNewIcon(iconHash, buffer)`. -/
def receiveNewIcon (s : details) (iconHash : String) (buffer : List Nat) : details :=
  if iconHash = s.receivedIconHash then s
  else
    { s with
      receivedIconHash := iconHash,
      receivedIconBitmapBuffer :=
        memcpy s.receivedIconBitmapBuffer buffer ICON_BITMAP_BUFFER_SIZE }

/-- `Data::update()`. -/
def update (s : details) : details :=
  if s.receivedIconHash = "" then s
  else
    let s1 :=
      if isIconExisted s s.receivedIconHash = false then
        saveIcon s s.receivedIconHash s.receivedIconBitmapBuffer
      else s
    let s2 :=
      if s1.receivedIconHash = s1.displayIconHash then
        setIconBuffer s1 (some s1.receivedIconBitmapBuffer) ICON_BITMAP_BUFFER_SIZE
      else s1
    { s2 with receivedIconHash := "" }

/-- One step of the icon pipeline: a call of `setIconHash`, of
`receiveNewIcon` or of `update`. -/
inductive Op where
  | setIconHash (value : String)
  | receiveNewIcon (iconHash : String) (buffer : List Nat)
  | update
  deriving DecidableEq, Repr

/-- The state after one step of the icon pipeline. -/
def Op.apply (s : details) : Op → details
  | Op.setIconHash value => Data.setIconHash s value
  | Op.receiveNewIcon iconHash buffer => Data.receiveNewIcon s iconHash buffer
  | Op.update => Data.update s

end Data

/-! ## Concrete inputs -/

/-- A driver instance: chip select on pin 10, data/command on pin 9, no offset. -/
def sampleLcd : SimpleSt7789 :=
  { _width := 320, _height := 320, _pinCs := 10, _pinDc := 9, _pinRst := 8,
    _pinBacklight := 7, _rotation := Rotation.ROTATION_180, _xOffset := 0, _yOffset := 0 }

/-- The register constants of the ST7789 data sheet. -/
def sampleRegisters : Registers :=
  { REG_SLPOUT := 0x11, REG_INVOFF := 0x20, REG_INVON := 0x21, REG_DISPON := 0x29,
    REG_CASET := 0x2A, REG_RASET := 0x2B, REG_RAMWR := 0x2C, REG_MADCTL := 0x36,
    REG_COLMOD := 0x3A, REG_RAMCTRL := 0xB0, REG_PORCTRL := 0xB2, REG_GCTRL := 0xB7,
    REG_VCOMS := 0xBB, REG_LCMCTRL := 0xC0, REG_VDVVRHEN := 0xC2, REG_VRHS := 0xC3,
    REG_VDVS := 0xC4, REG_FRCTR2 := 0xC6, REG_PWCTRL1 := 0xD0, REG_PVGAMCTRL := 0xE0,
    REG_NVGAMCTRL := 0xE1, MADCTL_MX := 0x40, MADCTL_MY := 0x80, MADCTL_MV := 0x20,
    MADCTL_RGB := 0x00 }

/-- A 512-byte bitmap with every bit set. -/
def sampleBitmap : List Nat := List.replicate 512 0xFF

/-- A 512-byte bitmap with no bit set. -/
def blankBitmap : List Nat := List.replicate 512 0

/-- A freshly started pipeline: nothing requested, nothing pending, empty cache
on a file system whose opens succeed. -/
def sampleState : Data.details :=
  { displayIconHash := "", receivedIconHash := "", iconDirty := false,
    availableIcons := [],
    receivedIconBitmapBuffer := List.replicate 512 0,
    iconBitmapBuffer := List.replicate 512 0,
    iconRenderBuffer := List.replicate 4096 0,
    fs := { files := [], openReadOk := true, openWriteOk := true, writes := [] },
    serial := [] }

/-- A pipeline whose cache already holds the hash `abc`, stored as the blank
bitmap. -/
def cachedState : Data.details :=
  { sampleState with
    availableIcons := ["abc"],
    fs := { files := [("/abc.bin", blankBitmap)], openReadOk := true, openWriteOk := true,
            writes := [] } }

/-- A pipeline in which the icon `abc` is requested and not yet delivered. -/
def awaitingState : Data.details :=
  { sampleState with displayIconHash := "abc" }

/-- A pipeline whose cache index holds `abc` although no file is stored for
it, with the all-ones bitmap of an earlier icon left in `iconBitmapBuffer`. -/
def staleState : Data.details :=
  { sampleState with availableIcons := ["abc"], iconBitmapBuffer := sampleBitmap }

/-- A pipeline whose cache holds `abc` with a stored file of one byte only. -/
def shortFileState : Data.details :=
  { sampleState with
    availableIcons := ["abc"],
    fs := { files := [("/abc.bin", [0xFF])], openReadOk := true, openWriteOk := true,
            writes := [] } }

/-- A freshly started pipeline on a file system that cannot open files for
writing, as when the mount in `Data::init` failed. -/
def unwritableState : Data.details :=
  { sampleState with
    fs := { files := [], openReadOk := true, openWriteOk := false, writes := [] } }

/-- A pipeline in which the icon `xyz` is requested and shown, with an empty
cache. -/
def otherRequestedState : Data.details :=
  { sampleState with displayIconHash := "xyz" }

/-! ## Helper lemmas -/

theorem readBytes_self (p : List Nat) : readBytes p p.length = p := by
  apply List.ext_getElem?
  intro j
  unfold readBytes
  rw [List.getElem?_map]
  by_cases hj : j < p.length
  · rw [List.getElem?_range hj]
    simp [List.getD_eq_getElem?_getD, List.getElem?_eq_getElem hj]
  · rw [List.getElem?_eq_none (by simpa using hj), List.getElem?_eq_none (by simpa using hj)]
    rfl

theorem readBytes_of_length (p : List Nat) (n : Nat) (h : p.length = n) : readBytes p n = p := by
  subst h
  exact readBytes_self p

theorem readBytes_length (p : List Nat) (n : Nat) : (readBytes p n).length = n := by
  simp [readBytes]

theorem land_0xFF (v : Nat) : v &&& 0xFF = v % 256 := by
  have h := Nat.and_pow_two_sub_one_eq_mod v 8
  simpa using h

theorem land_7 (v : Nat) : v &&& 7 = v % 8 := by
  have h := Nat.and_pow_two_sub_one_eq_mod v 3
  simpa using h

theorem land_one_shiftLeft_ne_zero (a k : Nat) : ((a &&& (1 <<< k)) != 0) = a.testBit k := by
  rw [Nat.one_shiftLeft]
  cases hb : a.testBit k
  · have h0 : a &&& 2 ^ k = 0 := by
      apply Nat.eq_of_testBit_eq
      intro j
      rw [Nat.testBit_and, Nat.testBit_two_pow, Nat.zero_testBit]
      by_cases hkj : k = j
      · subst hkj
        simp [hb]
      · simp [hkj]
    simp [h0]
  · have h1 : (a &&& 2 ^ k).testBit k = true := by
      rw [Nat.testBit_and, Nat.testBit_two_pow_self, hb]
      rfl
    have hne : a &&& 2 ^ k ≠ 0 := by
      intro h0
      rw [h0, Nat.zero_testBit] at h1
      exact Bool.noConfusion h1
    simpa using hne

theorem transferLoop_single (data : List Nat) (size : Nat) (h0 : 0 < size)
    (h : size ≤ SimpleSt7789.CHUNK) :
    SimpleSt7789.transferLoop data size 0 = [BusEvent.transferBytes (readBytes data size)] := by
  have h1 : ¬ (SimpleSt7789.CHUNK < size) := by omega
  rw [SimpleSt7789.transferLoop]
  simp only [h0, dite_true, gt_iff_lt, Nat.sub_zero, h1, if_false, Nat.zero_add, List.drop_zero]
  rw [SimpleSt7789.transferLoop]
  simp

theorem foldl_set_length (g : Nat → Nat) (base n : Nat) (d : List Nat) :
    ((List.range n).foldl (fun d x => d.set (base + x) (g x)) d).length = d.length := by
  induction n with
  | zero => simp
  | succ n ih => simp [List.range_succ, List.foldl_append, ih]

theorem foldl_set_getElem? (g : Nat → Nat) (base n : Nat) (d : List Nat) (j : Nat) :
    ((List.range n).foldl (fun d x => d.set (base + x) (g x)) d)[j]? =
      if base ≤ j ∧ j < base + n ∧ j < d.length then some (g (j - base)) else d[j]? := by
  induction n with
  | zero =>
    have c : ¬ (base ≤ j ∧ j < base + 0 ∧ j < d.length) := by omega
    rw [if_neg c]
    rfl
  | succ n ih =>
    rw [List.range_succ, List.foldl_append, List.foldl_cons, List.foldl_nil, List.getElem?_set,
      foldl_set_length, ih]
    by_cases hj : base + n = j
    · subst hj
      by_cases hl : base + n < d.length
      · have c1 : base ≤ base + n ∧ base + n < base + (n + 1) ∧ base + n < d.length := by omega
        simp [hl, c1]
      · have c1 : ¬ (base ≤ base + n ∧ base + n < base + (n + 1) ∧ base + n < d.length) := by
          omega
        have c2 : d[base + n]? = none := List.getElem?_eq_none (by omega)
        simp [hl, c1, c2]
    · rw [if_neg hj]
      by_cases c : base ≤ j ∧ j < base + n ∧ j < d.length
      · have c1 : base ≤ j ∧ j < base + (n + 1) ∧ j < d.length := by omega
        rw [if_pos c, if_pos c1]
      · have c1 : ¬ (base ≤ j ∧ j < base + (n + 1) ∧ j < d.length) := by omega
        rw [if_neg c, if_neg c1]

theorem convertRow_length (s : List Nat) (w y a b : Nat) (d : List Nat) :
    (convertRow s w y a b d).length = d.length := by
  unfold convertRow
  exact foldl_set_length (fun x => if pixelOn s w y x then a else b) (y * w) w d

theorem convertRow_getElem? (s : List Nat) (w y a b : Nat) (d : List Nat) (j : Nat) :
    (convertRow s w y a b d)[j]? =
      if y * w ≤ j ∧ j < y * w + w ∧ j < d.length then
        some (if pixelOn s w y (j - y * w) then a else b)
      else d[j]? := by
  unfold convertRow
  exact foldl_set_getElem? (fun x => if pixelOn s w y x then a else b) (y * w) w d j

theorem convertRows_length (s : List Nat) (w h a b : Nat) (d : List Nat) :
    ((List.range h).foldl (fun d y => convertRow s w y a b d) d).length = d.length := by
  induction h with
  | zero => simp
  | succ h ih => simp [List.range_succ, List.foldl_append, convertRow_length, ih]

theorem convertRows_getElem? (s : List Nat) (w h a b : Nat) (d : List Nat) (j : Nat) :
    ((List.range h).foldl (fun d y => convertRow s w y a b d) d)[j]? =
      if j < h * w ∧ j < d.length then
        some (if pixelOn s w (j / w) (j % w) then a else b)
      else d[j]? := by
  induction h with
  | zero =>
    have c : ¬ (j < 0 * w ∧ j < d.length) := by omega
    rw [if_neg c]
    rfl
  | succ h ih =>
    rw [List.range_succ, List.foldl_append, List.foldl_cons, List.foldl_nil,
      convertRow_getElem?, convertRows_length, ih]
    have hs : (h + 1) * w = h * w + w := Nat.succ_mul h w
    by_cases c : h * w ≤ j ∧ j < h * w + w ∧ j < d.length
    · have hq : j / w = h := Nat.div_eq_of_lt_le c.1 (by omega)
      have hm : j % w = j - h * w := by
        have := Nat.mod_add_div j w
        rw [hq, Nat.mul_comm w h] at this
        omega
      have c1 : j < (h + 1) * w ∧ j < d.length := by omega
      rw [if_pos c, if_pos c1, hq, hm]
    · rw [if_neg c]
      by_cases c2 : j < h * w ∧ j < d.length
      · have c3 : j < (h + 1) * w ∧ j < d.length := by omega
        rw [if_pos c2, if_pos c3]
      · have c3 : ¬ (j < (h + 1) * w ∧ j < d.length) := by omega
        rw [if_neg c2, if_neg c3]

/-- What the code computes: on a destination of `width * height` pixels, pixel
`j` of the result is decided by the tested bit of row `j / width`, column
`j % width`. -/
theorem convert_eq_map (dst src : List Nat) (w h color bgColor : Nat) (invert : Bool)
    (hd : dst.length = w * h) :
    convert1BitBitmapToRgb565 dst src w h color bgColor invert =
      (List.range (w * h)).map (fun j =>
        if pixelOn src w (j / w) (j % w) then (if invert then bgColor else color)
        else (if invert then color else bgColor)) := by
  apply List.ext_getElem?
  intro j
  unfold convert1BitBitmapToRgb565
  simp only []
  rw [convertRows_getElem?, List.getElem?_map, hd, Nat.mul_comm h w]
  by_cases hj : j < w * h
  · rw [if_pos ⟨hj, hj⟩, List.getElem?_range hj]
    rfl
  · have c : ¬ (j < w * h ∧ j < w * h) := by omega
    rw [if_neg c, List.getElem?_eq_none (by omega), List.getElem?_eq_none (by simpa using hj)]
    rfl

theorem pixelOn_eq_bitmapBit (src : List Nat) (w y x : Nat) (hw : 8 ∣ w) :
    pixelOn src w y x = bitmapBit src (y * w + x) := by
  obtain ⟨k, rfl⟩ := hw
  unfold pixelOn bitmapBit
  have e : y * (8 * k) = 8 * (y * k) := by ring
  have hmod : (y * (8 * k) + x) % 8 = x % 8 := by
    rw [e]
    omega
  rw [land_one_shiftLeft_ne_zero, land_7, Nat.shiftRight_eq_div_pow, hmod]

/-- For a width that is a multiple of 8 the code agrees with the row-major,
most-significant-bit-first reading of the bitmap. -/
theorem convert_eq_reference (dst src : List Nat) (w h color bgColor : Nat) (hw : 8 ∣ w)
    (hd : dst.length = w * h) :
    convert1BitBitmapToRgb565 dst src w h color bgColor false =
      referenceConversion src w h color bgColor := by
  rw [convert_eq_map dst src w h color bgColor false hd]
  unfold referenceConversion
  apply List.map_congr_left
  intro j hj
  have hjlt : j < w * h := List.mem_range.mp hj
  have hwpos : 0 < w := by
    rcases Nat.eq_zero_or_pos w with h0 | h0
    · subst h0
      simp at hjlt
    · exact h0
  have hidx : j / w * w + j % w = j := by
    have := Nat.div_add_mod j w
    rw [Nat.mul_comm] at this
    exact this
  rw [pixelOn_eq_bitmapBit src w (j / w) (j % w) hw, hidx]
  simp

theorem filesLookup_filesStore (files : List (String × List Nat)) (path : String)
    (content : List Nat) :
    filesLookup (filesStore files path content) path = some content := by
  induction files with
  | nil => simp [filesStore, filesLookup]
  | cons e rest ih =>
    obtain ⟨p, c⟩ := e
    by_cases hp : p = path
    · simp [filesStore, filesLookup, hp]
    · simp [filesStore, filesLookup, hp, ih]

/-! ### The icon cache -/

theorem setIconBuffer_iconBitmapBuffer (s : Data.details) (value : Option (List Nat))
    (length : Nat) :
    (Data.setIconBuffer s value length).iconBitmapBuffer = s.iconBitmapBuffer := by
  unfold Data.setIconBuffer
  cases value with
  | none => rfl
  | some v =>
    simp only []
    split
    · rfl
    · split <;> rfl

theorem setIconBuffer_some_full (s : Data.details) (v : List Nat) :
    Data.setIconBuffer s (some v) ICON_BITMAP_BUFFER_SIZE =
      { s with
        iconRenderBuffer :=
          convert1BitBitmapToRgb565 s.iconRenderBuffer v ICON_WIDTH ICON_HEIGHT
            (lv_color_to_u16 (lv_color_make 0 0 255))
            (lv_color_to_u16 (lv_color_make 255 255 255)) false,
        iconDirty := true } := by
  have hnz : ¬ (ICON_BITMAP_BUFFER_SIZE = 0) := by decide
  have hle : ¬ (ICON_BITMAP_BUFFER_SIZE > ICON_BITMAP_BUFFER_SIZE) := Nat.lt_irrefl _
  unfold Data.setIconBuffer
  simp only [hnz, hle, if_false]

theorem readFile_found (fs : FileSystem) (filename : String) (buffer content : List Nat)
    (bufferSize : Nat) (hr : fs.openReadOk = true)
    (hfile : filesLookup fs.files filename = some content)
    (hsz : content.length ≤ bufferSize) :
    Data.readFile fs filename buffer bufferSize =
      (content.length, content ++ buffer.drop content.length) := by
  have hgt : ¬ (content.length > bufferSize) := by omega
  unfold Data.readFile
  rw [hfile]
  simp [hr, hgt]

theorem loadIcon_of_existed (s : Data.details) (iconHash : String)
    (hex : Data.isIconExisted s iconHash = true) :
    Data.loadIcon s iconHash =
      Data.setIconBuffer
        { s with
          iconBitmapBuffer :=
            (Data.readFile s.fs (Data.iconPath iconHash) s.iconBitmapBuffer
              ICON_BITMAP_BUFFER_SIZE).2 }
        (some (Data.readFile s.fs (Data.iconPath iconHash) s.iconBitmapBuffer
              ICON_BITMAP_BUFFER_SIZE).2)
        ICON_BITMAP_BUFFER_SIZE := by
  unfold Data.loadIcon
  simp [hex]

theorem loadIcon_iconBitmapBuffer (s : Data.details) (iconHash : String)
    (hex : Data.isIconExisted s iconHash = true) :
    (Data.loadIcon s iconHash).iconBitmapBuffer =
      (Data.readFile s.fs (Data.iconPath iconHash) s.iconBitmapBuffer
        ICON_BITMAP_BUFFER_SIZE).2 := by
  rw [loadIcon_of_existed s iconHash hex, setIconBuffer_iconBitmapBuffer]

theorem saveIcon_of_existed (s : Data.details) (iconHash : String) (buffer : List Nat)
    (hex : Data.isIconExisted s iconHash = true) :
    Data.saveIcon s iconHash buffer = s := by
  unfold Data.saveIcon
  simp [hex]

theorem saveIcon_of_not_existed (s : Data.details) (iconHash : String) (buffer : List Nat)
    (hex : Data.isIconExisted s iconHash = false) :
    Data.saveIcon s iconHash buffer =
      { s with
        fs := Data.writeFile s.fs (Data.iconPath iconHash) buffer ICON_BITMAP_BUFFER_SIZE,
        availableIcons := s.availableIcons ++ [iconHash] } := by
  unfold Data.saveIcon
  simp [hex]

theorem isIconExisted_saveIcon (s : Data.details) (iconHash : String) (buffer : List Nat) :
    Data.isIconExisted (Data.saveIcon s iconHash buffer) iconHash = true := by
  cases hex : Data.isIconExisted s iconHash
  · rw [saveIcon_of_not_existed s iconHash buffer hex]
    simp [Data.isIconExisted]
  · rw [saveIcon_of_existed s iconHash buffer hex]
    exact hex

theorem writeFile_openReadOk (fs : FileSystem) (filename : String) (buffer : List Nat)
    (length : Nat) :
    (Data.writeFile fs filename buffer length).openReadOk = fs.openReadOk := by
  unfold Data.writeFile
  split <;> rfl

theorem writeFile_lookup (fs : FileSystem) (filename : String) (buffer : List Nat)
    (length : Nat) (hw : fs.openWriteOk = true) :
    filesLookup (Data.writeFile fs filename buffer length).files filename =
      some (readBytes buffer length) := by
  unfold Data.writeFile
  simp only [hw, Bool.true_eq_false, if_false]
  exact filesLookup_filesStore _ _ _

/-! ### The icon pipeline -/

theorem memcpy_full (dst src : List Nat) (n : Nat) (hd : dst.length = n) (hs : src.length = n) :
    memcpy dst src n = src := by
  unfold memcpy
  rw [readBytes_of_length src n hs, List.drop_eq_nil_of_le (Nat.le_of_eq hd), List.append_nil]

theorem receiveNewIcon_of_ne (s : Data.details) (iconHash : String) (buffer : List Nat)
    (hne : iconHash ≠ s.receivedIconHash) :
    Data.receiveNewIcon s iconHash buffer =
      { s with
        receivedIconHash := iconHash,
        receivedIconBitmapBuffer :=
          memcpy s.receivedIconBitmapBuffer buffer ICON_BITMAP_BUFFER_SIZE } := by
  unfold Data.receiveNewIcon
  rw [if_neg hne]

theorem receiveNewIcon_receivedIconHash (s : Data.details) (iconHash : String)
    (buffer : List Nat) :
    (Data.receiveNewIcon s iconHash buffer).receivedIconHash = iconHash := by
  unfold Data.receiveNewIcon
  split
  · next h => exact h.symm
  · rfl

theorem isIconExisted_iff (s : Data.details) (iconHash : String) :
    Data.isIconExisted s iconHash = true ↔ iconHash ∈ s.availableIcons := by
  simp [Data.isIconExisted]

/-- What `update()` does when the pending hash is non-empty and equals the
requested hash. -/
theorem update_matching (t : Data.details) (hp : t.receivedIconHash ≠ "")
    (hm : t.receivedIconHash = t.displayIconHash) :
    Data.isIconExisted (Data.update t) t.receivedIconHash = true ∧
    (Data.update t).iconRenderBuffer =
      convert1BitBitmapToRgb565 t.iconRenderBuffer t.receivedIconBitmapBuffer
        ICON_WIDTH ICON_HEIGHT
        (lv_color_to_u16 (lv_color_make 0 0 255))
        (lv_color_to_u16 (lv_color_make 255 255 255)) false ∧
    (Data.update t).iconDirty = true ∧
    (Data.update t).receivedIconHash = "" := by
  unfold Data.update
  rw [if_neg hp]
  cases hex : Data.isIconExisted t t.receivedIconHash
  · simp only [if_true]
    rw [saveIcon_of_not_existed t _ _ hex]
    simp only [hm, if_true, setIconBuffer_some_full]
    refine ⟨?_, trivial, trivial, trivial⟩
    rw [isIconExisted_iff]
    exact List.mem_append_right _ (List.mem_singleton_self _)
  · simp only [Bool.true_eq_false, if_false, hm, if_true, setIconBuffer_some_full]
    refine ⟨?_, trivial, trivial, trivial⟩
    rw [← hm]
    exact hex

theorem update_receivedIconHash (s : Data.details) : (Data.update s).receivedIconHash = "" := by
  unfold Data.update
  split
  · assumption
  · rfl

theorem update_of_no_pending (s : Data.details) (h : s.receivedIconHash = "") :
    Data.update s = s := by
  unfold Data.update
  rw [if_pos h]

theorem readFile_missing (fs : FileSystem) (filename : String) (buffer : List Nat)
    (bufferSize : Nat) (hfile : filesLookup fs.files filename = none) :
    Data.readFile fs filename buffer bufferSize = (0, buffer) := by
  unfold Data.readFile
  rw [hfile]
  split <;> rfl

theorem loadIcon_existed_state (s : Data.details) (iconHash : String)
    (hex : Data.isIconExisted s iconHash = true) :
    Data.loadIcon s iconHash =
      { s with
        iconBitmapBuffer :=
          (Data.readFile s.fs (Data.iconPath iconHash) s.iconBitmapBuffer
            ICON_BITMAP_BUFFER_SIZE).2,
        iconRenderBuffer :=
          convert1BitBitmapToRgb565 s.iconRenderBuffer
            (Data.readFile s.fs (Data.iconPath iconHash) s.iconBitmapBuffer
              ICON_BITMAP_BUFFER_SIZE).2
            ICON_WIDTH ICON_HEIGHT
            (lv_color_to_u16 (lv_color_make 0 0 255))
            (lv_color_to_u16 (lv_color_make 255 255 255)) false,
        iconDirty := true } := by
  rw [loadIcon_of_existed s iconHash hex, setIconBuffer_some_full]

theorem loadIcon_existed_render (s : Data.details) (iconHash : String)
    (hex : Data.isIconExisted s iconHash = true)
    (hlen : s.iconRenderBuffer.length = ICON_WIDTH * ICON_HEIGHT) :
    (Data.loadIcon s iconHash).iconRenderBuffer =
      referenceConversion
        (Data.readFile s.fs (Data.iconPath iconHash) s.iconBitmapBuffer
          ICON_BITMAP_BUFFER_SIZE).2 64 64 0x001F 0xFFFF := by
  have hconv : ∀ src : List Nat,
      convert1BitBitmapToRgb565 s.iconRenderBuffer src ICON_WIDTH ICON_HEIGHT
        (lv_color_to_u16 (lv_color_make 0 0 255))
        (lv_color_to_u16 (lv_color_make 255 255 255)) false =
      referenceConversion src 64 64 0x001F 0xFFFF :=
    fun src => convert_eq_reference s.iconRenderBuffer src 64 64 0x001F 0xFFFF (by decide) hlen
  rw [loadIcon_existed_state s iconHash hex]
  simp only []
  exact hconv _

theorem loadIcon_existed_dirty (s : Data.details) (iconHash : String)
    (hex : Data.isIconExisted s iconHash = true) :
    (Data.loadIcon s iconHash).iconDirty = true := by
  rw [loadIcon_existed_state s iconHash hex]

theorem setIconHash_same (s : Data.details) : Data.setIconHash s s.displayIconHash = s := by
  unfold Data.setIconHash
  rw [if_pos rfl]

theorem setIconHash_empty (s : Data.details) (h : s.displayIconHash ≠ "") :
    Data.setIconHash s "" =
      { s with
        displayIconHash := "",
        iconRenderBuffer := List.replicate s.iconRenderBuffer.length 0xFFFF,
        iconDirty := true } := by
  have h2 : ¬ ("" = s.displayIconHash) := fun e => h e.symm
  unfold Data.setIconHash
  simp only [if_neg h2, if_true]
  rfl

/-! ### Chunked transfers -/

theorem readBytes_eq_take (p : List Nat) (n : Nat) (h : n ≤ p.length) :
    readBytes p n = p.take n := by
  apply List.ext_getElem?
  intro j
  unfold readBytes
  rw [List.getElem?_map, List.getElem?_take]
  by_cases hj : j < n
  · have hjp : j < p.length := by omega
    rw [List.getElem?_range hj, if_pos hj]
    simp [List.getD_eq_getElem?_getD, List.getElem?_eq_getElem hjp]
  · rw [if_neg hj, List.getElem?_eq_none (by simpa using hj)]
    rfl

/-- The loop of `sendCommand` and `sendData`, started at position `pos` on at
least `size` bytes, issues the bytes from `pos` to `size` in chunks: as many as
`ceil((size - pos) / 4096)`, each of 1 to 4096 bytes, all but the last of 4096
bytes. -/
theorem transferLoop_chunks (data : List Nat) (size : Nat) (hsize : size ≤ data.length) :
    ∀ k pos, size - pos = k → pos ≤ size →
      ∃ chunks : List (List Nat),
        SimpleSt7789.transferLoop data size pos = chunks.map BusEvent.transferBytes ∧
        chunks.length = (size - pos + 4095) / 4096 ∧
        (∀ c ∈ chunks, 1 ≤ c.length ∧ c.length ≤ 4096) ∧
        (∀ c ∈ chunks.dropLast, c.length = 4096) ∧
        chunks.flatten = (data.drop pos).take (size - pos) := by
  intro k
  induction k using Nat.strong_induction_on with
  | _ k ih =>
    intro pos hk hpos
    by_cases hlt : pos < size
    · rw [SimpleSt7789.transferLoop, dif_pos hlt]
      simp only [SimpleSt7789.CHUNK]
      by_cases hbig : size - pos > 4096
      · rw [if_pos hbig]
        obtain ⟨rest, hrest, hlen, hall, hinit, hcat⟩ :=
          ih (size - (pos + 4096)) (by omega) (pos + 4096) rfl (by omega)
        have hfirst : readBytes (data.drop pos) 4096 = (data.drop pos).take 4096 :=
          readBytes_eq_take _ _ (by rw [List.length_drop]; omega)
        have hflen : ((data.drop pos).take 4096).length = 4096 := by
          rw [List.length_take, List.length_drop]
          omega
        have hne : rest ≠ [] := by
          intro h0
          rw [h0] at hlen
          simp only [List.length_nil] at hlen
          omega
        refine ⟨(data.drop pos).take 4096 :: rest, ?_, ?_, ?_, ?_, ?_⟩
        · rw [hfirst, hrest]
          rfl
        · rw [List.length_cons, hlen]
          omega
        · intro c hc
          rcases List.mem_cons.mp hc with h1 | h1
          · rw [h1, hflen]
            exact ⟨by decide, by decide⟩
          · exact hall c h1
        · intro c hc
          rw [List.dropLast_cons_of_ne_nil hne] at hc
          rcases List.mem_cons.mp hc with h1 | h1
          · rw [h1, hflen]
          · exact hinit c h1
        · rw [List.flatten_cons, hcat]
          have e1 : size - pos = 4096 + (size - (pos + 4096)) := by omega
          have e2 : data.drop (pos + 4096) = (data.drop pos).drop 4096 := by
            rw [List.drop_drop]
          rw [e2, e1, List.take_add]
      · rw [if_neg hbig]
        have hfirst : readBytes (data.drop pos) (size - pos) =
            (data.drop pos).take (size - pos) :=
          readBytes_eq_take _ _ (by rw [List.length_drop]; omega)
        have hflen : ((data.drop pos).take (size - pos)).length = size - pos := by
          rw [List.length_take, List.length_drop]
          omega
        have hend : SimpleSt7789.transferLoop data size (pos + (size - pos)) = [] := by
          rw [SimpleSt7789.transferLoop, dif_neg (by omega)]
        refine ⟨[(data.drop pos).take (size - pos)], ?_, ?_, ?_, ?_, ?_⟩
        · rw [hfirst, hend]
          rfl
        · rw [List.length_singleton]
          omega
        · intro c hc
          rw [List.mem_singleton.mp hc, hflen]
          omega
        · intro c hc
          simp at hc
        · simp
    · have hz : size - pos = 0 := by omega
      refine ⟨[], ?_, ?_, ?_, ?_, ?_⟩
      · rw [SimpleSt7789.transferLoop, dif_neg hlt]
        rfl
      · rw [hz]
        rfl
      · intro c hc
        simp at hc
      · intro c hc
        simp at hc
      · rw [hz]
        simp

/-! ### Commands on the bus -/

theorem payloadOf_chunks (chunks : List (List Nat)) (rest : List BusEvent) :
    payloadOf (chunks.map BusEvent.transferBytes ++ rest) = chunks.flatten ++ payloadOf rest := by
  induction chunks with
  | nil => rfl
  | cons c cs ih =>
    show payloadOf (BusEvent.transferBytes c :: (cs.map BusEvent.transferBytes ++ rest)) = _
    rw [payloadOf, ih, List.flatten_cons, List.append_assoc]

theorem commandsOf_chunks (chunks : List (List Nat)) (rest : List BusEvent) :
    commandsOf (chunks.map BusEvent.transferBytes ++ rest) = commandsOf rest := by
  induction chunks with
  | nil => rfl
  | cons c cs ih =>
    show commandsOf (BusEvent.transferBytes c :: (cs.map BusEvent.transferBytes ++ rest)) = _
    exact ih

theorem commandsOf_sendCommand_none (d : SimpleSt7789) (command size : Nat)
    (rest : List BusEvent) :
    commandsOf (SimpleSt7789.sendCommand d command none size ++ rest) =
      (command % 256, []) :: commandsOf rest := by
  simp [SimpleSt7789.sendCommand, commandsOf, payloadOf]

theorem commandsOf_sendCommand_some (d : SimpleSt7789) (command : Nat) (bytes : List Nat)
    (h0 : 0 < bytes.length) (h1 : bytes.length ≤ SimpleSt7789.CHUNK) (rest : List BusEvent) :
    commandsOf (SimpleSt7789.sendCommand d command (some bytes) bytes.length ++ rest) =
      (command % 256, bytes) :: commandsOf rest := by
  have hne : bytes.length ≠ 0 := by omega
  simp only [SimpleSt7789.sendCommand, hne, ne_eq, not_false_eq_true, if_true,
    transferLoop_single bytes bytes.length h0 h1, readBytes_self]
  simp [commandsOf, payloadOf]

theorem commandsOf_sendCommandFixed (d : SimpleSt7789) (command : Nat) (bytes : List Nat)
    (h0 : 0 < bytes.length) (h1 : bytes.length ≤ SimpleSt7789.CHUNK) (rest : List BusEvent) :
    commandsOf (SimpleSt7789.sendCommandFixed d command bytes ++ rest) =
      (command % 256, bytes) :: commandsOf rest :=
  commandsOf_sendCommand_some d command bytes h0 h1 rest

theorem commandsOf_reset (d : SimpleSt7789) (rest : List BusEvent) :
    commandsOf (SimpleSt7789.reset d ++ rest) = commandsOf rest := by
  unfold SimpleSt7789.reset
  split <;> simp [commandsOf]

theorem arduino_brightness (percent : Nat) (hp : percent < 256) :
    (Arduino.map ((Arduino.constrain percent 0 100) % 2 ^ 8) 0 100 0 1023) % 2 ^ 16 =
      min percent 100 * 1023 / 100 := by
  unfold Arduino.map Arduino.constrain
  by_cases h : percent > 100
  · have hm : min percent 100 = 100 := Nat.min_eq_right (by omega)
    simp [h, hm]
  · have hm : min percent 100 = percent := Nat.min_eq_left (by omega)
    have h0 : ¬ (percent < 0) := by omega
    rw [if_neg h0, if_neg h, hm]
    have e1 : percent % 2 ^ 8 = percent := Nat.mod_eq_of_lt (by omega)
    rw [e1]
    simp only [Nat.sub_zero, Nat.add_zero]
    apply Nat.mod_eq_of_lt
    omega

theorem setBrightness_eq (d : SimpleSt7789) (percent : Nat) (hp : percent < 256) :
    SimpleSt7789.setBrightness d percent =
      if d._pinBacklight = 255 then []
      else [BusEvent.ledcWrite d._pinBacklight (min percent 100 * 1023 / 100)] := by
  unfold SimpleSt7789.setBrightness
  simp only [arduino_brightness percent hp]

theorem commandsOf_setBrightness (d : SimpleSt7789) (percent : Nat) :
    commandsOf (SimpleSt7789.setBrightness d percent) = [] := by
  unfold SimpleSt7789.setBrightness
  split <;> rfl

/-- The commands that `init()` puts on the bus. -/
theorem init_commands (R : Registers) (d : SimpleSt7789) :
    commandsOf (SimpleSt7789.init R d).2 =
      [(R.REG_SLPOUT % 256, []),
       (R.REG_MADCTL % 256, [SimpleSt7789.madctlByte R d._rotation]),
       (R.REG_COLMOD % 256, [0x05]),
       (R.REG_RAMCTRL % 256, [0x00, 0xE8]),
       (R.REG_PORCTRL % 256, [0x0C, 0x0C, 0x00, 0x33, 0x33]),
       (R.REG_GCTRL % 256, [0x35]),
       (R.REG_VCOMS % 256, [0x35]),
       (R.REG_LCMCTRL % 256, [0x2C]),
       (R.REG_VDVVRHEN % 256, [0x01]),
       (R.REG_VRHS % 256, [0x13]),
       (R.REG_VDVS % 256, [0x20]),
       (R.REG_FRCTR2 % 256, [0x0F]),
       (R.REG_PWCTRL1 % 256, [0xA4, 0xA1]),
       (0xD6, [0xA1]),
       (R.REG_PVGAMCTRL % 256,
         [0xF0, 0x00, 0x04, 0x04, 0x04, 0x05, 0x29, 0x33, 0x3E, 0x38, 0x12, 0x12, 0x28, 0x30]),
       (R.REG_NVGAMCTRL % 256,
         [0xF0, 0x07, 0x0A, 0x0D, 0x0B, 0x07, 0x28, 0x33, 0x3E, 0x36, 0x14, 0x14, 0x29, 0x32]),
       (R.REG_INVON % 256, []),
       (R.REG_SLPOUT % 256, []),
       (R.REG_DISPON % 256, [])] := by
  have hrot : (SimpleSt7789.setRotation R d d._rotation).2 =
      SimpleSt7789.sendCommandFixed (SimpleSt7789.setRotation R d d._rotation).1 R.REG_MADCTL
        [SimpleSt7789.madctlByte R d._rotation] := rfl
  have hpin : ∀ (p : Nat) (rest : List BusEvent),
      commandsOf (BusEvent.pinModeOutput p :: rest) = commandsOf rest := fun _ _ => rfl
  have hdelay : ∀ (n : Nat) (rest : List BusEvent),
      commandsOf (BusEvent.delay n :: rest) = commandsOf rest := fun _ _ => rfl
  have hpre1 : ∀ (c : Prop) [Decidable c] (p : Nat) (rest : List BusEvent),
      commandsOf ((if c then [BusEvent.pinModeOutput p] else []) ++ rest) = commandsOf rest := by
    intro c _ p rest
    split <;> rfl
  have hpre2 : ∀ (c : Prop) [Decidable c] (p q r u v : Nat) (rest : List BusEvent),
      commandsOf ((if c then [BusEvent.ledcAttach p q r, BusEvent.ledcWrite u v] else [])
        ++ rest) = commandsOf rest := by
    intro c _ p q r u v rest
    split <;> rfl
  unfold SimpleSt7789.init
  simp only [hrot, List.append_assoc, List.cons_append, List.nil_append]
  rw [hpin, hpin, hpre1, hpre2, commandsOf_reset, commandsOf_sendCommand_none, hdelay]
  rw [commandsOf_sendCommandFixed _ _ [SimpleSt7789.madctlByte R d._rotation]
    (Nat.succ_pos 0) (Nat.succ_le_succ (Nat.zero_le 4095))]
  rw [commandsOf_sendCommandFixed _ _ _ (by decide) (by decide)]
  rw [commandsOf_sendCommandFixed _ _ _ (by decide) (by decide)]
  rw [commandsOf_sendCommandFixed _ _ _ (by decide) (by decide)]
  rw [commandsOf_sendCommandFixed _ _ _ (by decide) (by decide)]
  rw [commandsOf_sendCommandFixed _ _ _ (by decide) (by decide)]
  rw [commandsOf_sendCommandFixed _ _ _ (by decide) (by decide)]
  rw [commandsOf_sendCommandFixed _ _ _ (by decide) (by decide)]
  rw [commandsOf_sendCommandFixed _ _ _ (by decide) (by decide)]
  rw [commandsOf_sendCommandFixed _ _ _ (by decide) (by decide)]
  rw [commandsOf_sendCommandFixed _ _ _ (by decide) (by decide)]
  rw [commandsOf_sendCommandFixed _ _ _ (by decide) (by decide)]
  rw [commandsOf_sendCommandFixed _ _ _ (by decide) (by decide)]
  rw [commandsOf_sendCommandFixed _ _ _ (by decide) (by decide)]
  rw [commandsOf_sendCommandFixed _ _ _ (by decide) (by decide)]
  rw [commandsOf_sendCommand_none, commandsOf_sendCommand_none, hdelay,
    commandsOf_sendCommand_none, commandsOf_setBrightness]

/-! ### File names -/

theorem listFiles_foldl (names : List String) (acc : List String) :
    names.foldl Data.listFilesStep acc =
      acc ++ (names.filter (fun n => Data.endsWith n ".bin")).map
        (fun n => Data.substring n 0 (n.length - 4)) := by
  induction names generalizing acc with
  | nil => simp
  | cons n rest ih =>
    rw [List.foldl_cons, ih]
    unfold Data.listFilesStep
    cases hn : Data.endsWith n ".bin"
    · simp [hn]
    · simp [hn]

theorem endsWith_append (h suffix : String) : Data.endsWith (h ++ suffix) suffix = true := by
  unfold Data.endsWith
  rw [String.data_append]
  exact List.isSuffixOf_iff_suffix.mpr (List.suffix_append _ _)

theorem substring_append_bin (h : String) :
    Data.substring (h ++ ".bin") 0 ((h ++ ".bin").length - 4) = h := by
  have hlen : (h ++ ".bin").length = h.data.length + 4 := by
    show (h ++ ".bin").data.length = _
    rw [String.data_append, List.length_append]
    rfl
  unfold Data.substring
  rw [hlen, Nat.add_sub_cancel, String.data_append, List.take_left, List.drop_zero]

theorem takeWhile_append_stop (p : Char → Bool) (l r : List Char) (c : Char)
    (hl : ∀ x ∈ l, p x = true) (hc : p c = false) :
    (l ++ c :: r).takeWhile p = l := by
  induction l with
  | nil => simp [List.takeWhile, hc]
  | cons x xs ih =>
    have hx : p x = true := hl x (List.mem_cons_self x xs)
    have hxs : ∀ y ∈ xs, p y = true := fun y hy => hl y (List.mem_cons_of_mem x hy)
    simp [List.takeWhile, hx, ih hxs]

theorem pathToFileName_iconPath (h : String) (hs : '/' ∉ h.data) :
    Data.pathToFileName (Data.iconPath h) = h ++ ".bin" := by
  have hdata : (Data.iconPath h).data = '/' :: (h.data ++ ['.', 'b', 'i', 'n']) := by
    unfold Data.iconPath
    rw [String.data_append, String.data_append]
    rfl
  have hrev : (Data.iconPath h).data.reverse =
      (['n', 'i', 'b', '.'] ++ h.data.reverse) ++ '/' :: [] := by
    rw [hdata]
    simp
  have hall : ∀ x ∈ ['n', 'i', 'b', '.'] ++ h.data.reverse, (x != '/') = true := by
    intro x hx
    rcases List.mem_append.mp hx with h1 | h1
    · have hfix : ∀ y ∈ ['n', 'i', 'b', '.'], (y != '/') = true := by decide
      exact hfix x h1
    · have hx2 : x ∈ h.data := List.mem_reverse.mp h1
      have hne : x ≠ '/' := fun e => hs (e ▸ hx2)
      simpa using hne
  unfold Data.pathToFileName
  rw [hrev, takeWhile_append_stop _ _ _ _ hall (by decide)]
  apply String.ext
  simp

/-! ### Stores of the conversion -/

theorem convertRow_eq_stores (src : List Nat) (w y a b : Nat) (d : List Nat) :
    convertRow src w y a b d =
      ((List.range w).map (fun x =>
        (y * w + x, if pixelOn src w y x then a else b))).foldl
        (fun d e => d.set e.1 e.2) d := by
  unfold convertRow
  rw [List.foldl_map]

/-- The conversion is the destination after the stores of `convertStores`, made
in order. -/
theorem convert_eq_stores (dst src : List Nat) (w h color bgColor : Nat) (invert : Bool) :
    convert1BitBitmapToRgb565 dst src w h color bgColor invert =
      (convertStores src w h (if invert then bgColor else color)
        (if invert then color else bgColor)).foldl (fun d e => d.set e.1 e.2) dst := by
  unfold convert1BitBitmapToRgb565 convertStores
  simp only []
  rw [List.foldl_flatten, List.foldl_map]
  congr 1
  funext d y
  exact convertRow_eq_stores src w y _ _ d

/-- The indices stored to are `0, 1, ..., width * height - 1`, each once, in
this order. -/
theorem convertStores_indices (src : List Nat) (w h a b : Nat) :
    (convertStores src w h a b).map Prod.fst = List.range (w * h) := by
  unfold convertStores
  induction h with
  | zero => simp
  | succ h ih =>
    rw [List.range_succ, List.map_append, List.flatten_append, List.map_append, ih]
    have hrow : List.map Prod.fst
        (List.map (fun y => List.map (fun x =>
          (y * w + x, if pixelOn src w y x then a else b)) (List.range w)) [h]).flatten =
        (List.range w).map (fun x => w * h + x) := by
      simp [Nat.mul_comm]
    rw [hrow, Nat.mul_succ, List.range_add]

/-! ### Steps of the icon pipeline -/

theorem setIconHash_uncached (s : Data.details) (h : String) (hne : h ≠ "")
    (hnc : Data.isIconExisted s h = false) (hdiff : h ≠ s.displayIconHash) :
    Data.setIconHash s h = { s with displayIconHash := h } := by
  have hnc2 : Data.isIconExisted { s with displayIconHash := h } h = false := hnc
  unfold Data.setIconHash
  simp only [if_neg hdiff, if_neg hne, hnc2, Bool.false_eq_true, if_false]

theorem setIconHash_cached (s : Data.details) (h : String) (hne : h ≠ "")
    (hc : Data.isIconExisted s h = true) (hdiff : h ≠ s.displayIconHash) :
    Data.setIconHash s h = Data.loadIcon { s with displayIconHash := h } h := by
  have hc2 : Data.isIconExisted { s with displayIconHash := h } h = true := hc
  unfold Data.setIconHash
  simp only [if_neg hdiff, if_neg hne, hc2, if_true]

theorem writeFile_ok (fs : FileSystem) (filename : String) (buffer : List Nat) (length : Nat)
    (hw : fs.openWriteOk = true) :
    Data.writeFile fs filename buffer length =
      { fs with
        files := filesStore fs.files filename (readBytes buffer length),
        writes := fs.writes ++ [(filename, readBytes buffer length)] } := by
  unfold Data.writeFile
  simp only [hw, Bool.true_eq_false, if_false]

/-- What `update()` does to a pending hash that is not yet cached and equals
the requested hash. -/
theorem update_save_match (t : Data.details) (hp : t.receivedIconHash ≠ "")
    (hex : Data.isIconExisted t t.receivedIconHash = false)
    (hm : t.receivedIconHash = t.displayIconHash) :
    Data.update t =
      { t with
        fs := Data.writeFile t.fs (Data.iconPath t.receivedIconHash)
          t.receivedIconBitmapBuffer ICON_BITMAP_BUFFER_SIZE,
        availableIcons := t.availableIcons ++ [t.receivedIconHash],
        iconRenderBuffer :=
          convert1BitBitmapToRgb565 t.iconRenderBuffer t.receivedIconBitmapBuffer
            ICON_WIDTH ICON_HEIGHT
            (lv_color_to_u16 (lv_color_make 0 0 255))
            (lv_color_to_u16 (lv_color_make 255 255 255)) false,
        iconDirty := true,
        receivedIconHash := "" } := by
  unfold Data.update
  rw [if_neg hp]
  simp only [hex, if_true]
  rw [saveIcon_of_not_existed t _ _ hex]
  simp only [hm, if_true, setIconBuffer_some_full]

/-- What `update()` does to a pending hash that is not yet cached and differs
from the requested hash. -/
theorem update_save_nomatch (t : Data.details) (hp : t.receivedIconHash ≠ "")
    (hex : Data.isIconExisted t t.receivedIconHash = false)
    (hm : t.receivedIconHash ≠ t.displayIconHash) :
    Data.update t =
      { t with
        fs := Data.writeFile t.fs (Data.iconPath t.receivedIconHash)
          t.receivedIconBitmapBuffer ICON_BITMAP_BUFFER_SIZE,
        availableIcons := t.availableIcons ++ [t.receivedIconHash],
        receivedIconHash := "" } := by
  unfold Data.update
  rw [if_neg hp]
  simp only [hex, if_true]
  rw [saveIcon_of_not_existed t _ _ hex]
  simp only [hm, if_false]

theorem setIconHash_cached_state (s : Data.details) (h : String) (hne : h ≠ "")
    (hc : Data.isIconExisted s h = true) (hdiff : h ≠ s.displayIconHash) :
    Data.setIconHash s h =
      { s with
        displayIconHash := h,
        iconBitmapBuffer :=
          (Data.readFile s.fs (Data.iconPath h) s.iconBitmapBuffer ICON_BITMAP_BUFFER_SIZE).2,
        iconRenderBuffer :=
          convert1BitBitmapToRgb565 s.iconRenderBuffer
            (Data.readFile s.fs (Data.iconPath h) s.iconBitmapBuffer
              ICON_BITMAP_BUFFER_SIZE).2
            ICON_WIDTH ICON_HEIGHT
            (lv_color_to_u16 (lv_color_make 0 0 255))
            (lv_color_to_u16 (lv_color_make 255 255 255)) false,
        iconDirty := true } := by
  have hc2 : Data.isIconExisted { s with displayIconHash := h } h = true := hc
  rw [setIconHash_cached s h hne hc hdiff, loadIcon_existed_state _ h hc2]

theorem sampleBitmap_length : sampleBitmap.length = ICON_BITMAP_BUFFER_SIZE :=
  List.length_replicate 512 0xFF

theorem awaitingState_WF : awaitingState.WF :=
  ⟨List.length_replicate 512 0, List.length_replicate 512 0, List.length_replicate 4096 0⟩

open SimpleSt7789 Data

/-- C1 (code defect): for width 3, height 2, the one-byte source `0x80`, colour
1 and background 0, the code colours pixel (x, y) = (0, 1), whose bit number is
3, although bit 3 of the source, counted row-major and most significant bit
first, is clear: the code tests bit `7 - (x mod 8)` of the byte instead of bit
`7 - (i mod 8)`. -/
theorem C1_convert_tests_column_bit :
    convert1BitBitmapToRgb565 [0, 0, 0, 0, 0, 0] [0x80] 3 2 1 0 false = [1, 0, 0, 1, 0, 0] ∧
    referenceConversion [0x80] 3 2 1 0 = [1, 0, 0, 0, 0, 0] ∧
    bitmapBit [0x80] (1 * 3 + 0) = false ∧
    (convert1BitBitmapToRgb565 [0, 0, 0, 0, 0, 0] [0x80] 3 2 1 0 false).getD (1 * 3 + 0) 7 = 1 := by
  decide

/-- C2 (as stated, refuted): the window (0, 0)-(65535, 65535), the full
coordinate range, satisfies the claim's conditions; its exact byte count is
2^33 and the 32-bit product of `flushWindow` is 0. -/
theorem C2_flushWindow_full_range_wraps :
    (0 : Nat) ≤ 65535 ∧ 65535 < 2 ^ 16 ∧
    (65535 - 0 + 1) * (65535 - 0 + 1) * 2 = 2 ^ 33 ∧
    flushWindowNumBytes 0 0 65535 65535 = 0 ∧
    flushWindowNumBytes 0 0 65535 65535 ≠ (65535 - 0 + 1) * (65535 - 0 + 1) * 2 := by
  decide

/-- C2 (amended): for every window with `x1 ≤ x2`, `y1 ≤ y2` of 16-bit
coordinates whose exact byte count `(x2-x1+1) * (y2-y1+1) * 2` is below 2^32,
`flushWindow` sets the address window and then calls `sendData` with exactly
that byte count. -/
theorem C2_flushWindow_byte_count (R : Registers) (d : SimpleSt7789) (x1 y1 x2 y2 : Nat)
    (color : List Nat) (hx : x1 ≤ x2) (hx2 : x2 < 2 ^ 16) (hy : y1 ≤ y2) (hy2 : y2 < 2 ^ 16)
    (hfit : (x2 - x1 + 1) * (y2 - y1 + 1) * 2 < 2 ^ 32) :
    flushWindowNumBytes x1 y1 x2 y2 = (x2 - x1 + 1) * (y2 - y1 + 1) * 2 ∧
    flushWindow R d x1 y1 x2 y2 color =
      setAddrWindow R d x1 y1 x2 y2 ++
        sendData d color ((x2 - x1 + 1) * (y2 - y1 + 1) * 2) := by
  have hn : flushWindowNumBytes x1 y1 x2 y2 = (x2 - x1 + 1) * (y2 - y1 + 1) * 2 := by
    unfold flushWindowNumBytes
    have hw : ((x2 % 2 ^ 32 + 2 ^ 32 - x1 % 2 ^ 32) % 2 ^ 32 + 1) % 2 ^ 32 = x2 - x1 + 1 := by
      omega
    have hh : ((y2 % 2 ^ 32 + 2 ^ 32 - y1 % 2 ^ 32) % 2 ^ 32 + 1) % 2 ^ 32 = y2 - y1 + 1 := by
      omega
    simp only [hw, hh]
    have h1 : (x2 - x1 + 1) * (y2 - y1 + 1) % 2 ^ 32 = (x2 - x1 + 1) * (y2 - y1 + 1) :=
      Nat.mod_eq_of_lt (by omega)
    rw [h1]
    exact Nat.mod_eq_of_lt hfit
  refine ⟨hn, ?_⟩
  unfold flushWindow
  rw [hn]

/-- C2 witness: a 300x300 window sends 180000 bytes. -/
theorem C2_flushWindow_byte_count_witness :
    flushWindowNumBytes 0 0 299 299 = 180000 ∧
    flushWindow sampleRegisters sampleLcd 0 0 299 299 [] =
      setAddrWindow sampleRegisters sampleLcd 0 0 299 299 ++ sendData sampleLcd [] 180000 :=
  C2_flushWindow_byte_count sampleRegisters sampleLcd 0 0 299 299 [] (by decide) (by decide)
    (by decide) (by decide) (by decide)

/-- C3: with offset (ox, oy) stored by `setOffset` and every coordinate plus
its offset below 2^16, `setAddrWindow` puts exactly three command frames on the
bus: CASET with the big-endian bytes of x1+ox and x2+ox, RASET with those of
y1+oy and y2+oy, and RAMWR without payload. -/
theorem C3_setAddrWindow_encoding (R : Registers) (d : SimpleSt7789)
    (x1 y1 x2 y2 ox oy : Nat)
    (hx1 : x1 + ox < 2 ^ 16) (hx2 : x2 + ox < 2 ^ 16)
    (hy1 : y1 + oy < 2 ^ 16) (hy2 : y2 + oy < 2 ^ 16) :
    setAddrWindow R (setOffset d ox oy) x1 y1 x2 y2 =
      [BusEvent.beginTransaction,
       BusEvent.digitalWrite d._pinCs false,
       BusEvent.digitalWrite d._pinDc false,
       BusEvent.transfer (R.REG_CASET % 256),
       BusEvent.digitalWrite d._pinDc true,
       BusEvent.transferBytes
         [(x1 + ox) / 256, (x1 + ox) % 256, (x2 + ox) / 256, (x2 + ox) % 256],
       BusEvent.digitalWrite d._pinCs true,
       BusEvent.endTransaction,
       BusEvent.beginTransaction,
       BusEvent.digitalWrite d._pinCs false,
       BusEvent.digitalWrite d._pinDc false,
       BusEvent.transfer (R.REG_RASET % 256),
       BusEvent.digitalWrite d._pinDc true,
       BusEvent.transferBytes
         [(y1 + oy) / 256, (y1 + oy) % 256, (y2 + oy) / 256, (y2 + oy) % 256],
       BusEvent.digitalWrite d._pinCs true,
       BusEvent.endTransaction,
       BusEvent.beginTransaction,
       BusEvent.digitalWrite d._pinCs false,
       BusEvent.digitalWrite d._pinDc false,
       BusEvent.transfer (R.REG_RAMWR % 256),
       BusEvent.digitalWrite d._pinCs true,
       BusEvent.endTransaction] := by
  have hox : ox % 2 ^ 16 = ox := Nat.mod_eq_of_lt (by omega)
  have hoy : oy % 2 ^ 16 = oy := Nat.mod_eq_of_lt (by omega)
  have e1 : (x1 + ox) % 2 ^ 16 = x1 + ox := Nat.mod_eq_of_lt hx1
  have e2 : (x2 + ox) % 2 ^ 16 = x2 + ox := Nat.mod_eq_of_lt hx2
  have e3 : (y1 + oy) % 2 ^ 16 = y1 + oy := Nat.mod_eq_of_lt hy1
  have e4 : (y2 + oy) % 2 ^ 16 = y2 + oy := Nat.mod_eq_of_lt hy2
  have hi : ∀ v, v < 2 ^ 16 → (v >>> 8) % 2 ^ 8 = v / 256 := by
    intro v hv
    rw [Nat.shiftRight_eq_div_pow]
    apply Nat.mod_eq_of_lt
    omega
  have lo : ∀ v, (v &&& 0xFF) % 2 ^ 8 = v % 256 := by
    intro v
    rw [land_0xFF]
    omega
  simp only [setAddrWindow, setOffset, hox, hoy, e1, e2, e3, e4, hi _ hx1, hi _ hx2,
    hi _ hy1, hi _ hy2, lo, sendCommand]
  rw [transferLoop_single _ 4 (by decide) (by decide)]
  rw [transferLoop_single _ 4 (by decide) (by decide)]
  simp [readBytes, List.range, List.range.loop]

/-- C3 witness: the window (0, 0)-(319, 171) with offset (0, 34), the landscape
configuration of the firmware. -/
theorem C3_setAddrWindow_encoding_witness :
    0 + 0 < 2 ^ 16 ∧ 319 + 0 < 2 ^ 16 ∧ 0 + 34 < 2 ^ 16 ∧ 171 + 34 < 2 ^ 16 ∧
    setAddrWindow sampleRegisters (setOffset sampleLcd 0 34) 0 0 319 171 =
      [BusEvent.beginTransaction,
       BusEvent.digitalWrite 10 false,
       BusEvent.digitalWrite 9 false,
       BusEvent.transfer 0x2A,
       BusEvent.digitalWrite 9 true,
       BusEvent.transferBytes [0, 0, 1, 63],
       BusEvent.digitalWrite 10 true,
       BusEvent.endTransaction,
       BusEvent.beginTransaction,
       BusEvent.digitalWrite 10 false,
       BusEvent.digitalWrite 9 false,
       BusEvent.transfer 0x2B,
       BusEvent.digitalWrite 9 true,
       BusEvent.transferBytes [0, 34, 0, 205],
       BusEvent.digitalWrite 10 true,
       BusEvent.endTransaction,
       BusEvent.beginTransaction,
       BusEvent.digitalWrite 10 false,
       BusEvent.digitalWrite 9 false,
       BusEvent.transfer 0x2C,
       BusEvent.digitalWrite 10 true,
       BusEvent.endTransaction] :=
  ⟨by decide, by decide, by decide, by decide,
   C3_setAddrWindow_encoding sampleRegisters sampleLcd 0 0 319 171 0 34
     (by decide) (by decide) (by decide) (by decide)⟩

/-- C5 (as stated, refuted): in a state whose cache already holds `abc`, stored
as the blank bitmap, with reads and writes succeeding, saving the all-ones
bitmap under `abc` and loading `abc` leaves the blank bitmap in
`iconBitmapBuffer`, not the bitmap just passed to `saveIcon`. -/
theorem C5_roundtrip_fails_when_cached :
    cachedState.fs.openWriteOk = true ∧ cachedState.fs.openReadOk = true ∧
    sampleBitmap.length = 512 ∧
    (loadIcon (saveIcon cachedState "abc" sampleBitmap) "abc").iconBitmapBuffer = blankBitmap ∧
    (loadIcon (saveIcon cachedState "abc" sampleBitmap) "abc").iconBitmapBuffer ≠ sampleBitmap := by
  have hex : isIconExisted cachedState "abc" = true := by decide
  have hlen : blankBitmap.length = 512 := List.length_replicate 512 0
  have hfile : filesLookup cachedState.fs.files (iconPath "abc") = some blankBitmap := by
    have hp : iconPath "abc" = "/abc.bin" := by decide
    rw [hp]
    exact if_pos rfl
  have hdrop : List.drop blankBitmap.length cachedState.iconBitmapBuffer = [] :=
    List.drop_eq_nil_of_le (by rw [hlen]; exact Nat.le_of_eq (List.length_replicate 512 0))
  have hload :
      (loadIcon (saveIcon cachedState "abc" sampleBitmap) "abc").iconBitmapBuffer
        = blankBitmap := by
    rw [saveIcon_of_existed _ _ _ hex, loadIcon_iconBitmapBuffer _ _ hex,
      readFile_found _ _ _ blankBitmap _ rfl hfile (by rw [hlen]; decide), hdrop,
      List.append_nil]
  refine ⟨rfl, rfl, List.length_replicate 512 0xFF, hload, ?_⟩
  rw [hload]
  intro h
  have h0 : blankBitmap.getD 0 1 = sampleBitmap.getD 0 1 := by rw [h]
  revert h0
  decide

/-- C5 (amended): with file opens succeeding, for every state whose cache index
does not contain `hash`, or whose stored file for `hash` already holds `b`, and
every 512-byte bitmap `b`, `saveIcon(hash, b)` followed by `loadIcon(hash)`
leaves `iconBitmapBuffer` equal to `b`. -/
theorem C5_save_then_load_roundtrip (s : Data.details) (hash : String) (b : List Nat)
    (hbuf : s.iconBitmapBuffer.length = ICON_BITMAP_BUFFER_SIZE)
    (hb : b.length = ICON_BITMAP_BUFFER_SIZE)
    (hw : s.fs.openWriteOk = true) (hr : s.fs.openReadOk = true)
    (hfresh : isIconExisted s hash = false ∨
      filesLookup s.fs.files (iconPath hash) = some b) :
    (loadIcon (saveIcon s hash b) hash).iconBitmapBuffer = b := by
  have hdrop : List.drop b.length s.iconBitmapBuffer = [] :=
    List.drop_eq_nil_of_le (by omega)
  rw [loadIcon_iconBitmapBuffer _ _ (isIconExisted_saveIcon s hash b)]
  cases hex : isIconExisted s hash
  · rw [saveIcon_of_not_existed s hash b hex]
    have hfile := writeFile_lookup s.fs (iconPath hash) b ICON_BITMAP_BUFFER_SIZE hw
    rw [readBytes_of_length b _ hb] at hfile
    have hrd : (writeFile s.fs (iconPath hash) b ICON_BITMAP_BUFFER_SIZE).openReadOk = true := by
      rw [writeFile_openReadOk]
      exact hr
    rw [readFile_found _ _ _ b _ hrd hfile (Nat.le_of_eq hb)]
    simp only [hdrop, List.append_nil]
  · have hfile : filesLookup s.fs.files (iconPath hash) = some b := by
      rcases hfresh with h | h
      · rw [hex] at h
        exact Bool.noConfusion h
      · exact h
    rw [saveIcon_of_existed s hash b hex,
      readFile_found _ _ _ b _ hr hfile (Nat.le_of_eq hb), hdrop, List.append_nil]

/-- C5 witness: from the fresh state, saving and loading `abc`. -/
theorem C5_save_then_load_roundtrip_witness :
    isIconExisted sampleState "abc" = false ∧
    (loadIcon (saveIcon sampleState "abc" sampleBitmap) "abc").iconBitmapBuffer
      = sampleBitmap :=
  ⟨by decide,
   C5_save_then_load_roundtrip sampleState "abc" sampleBitmap (List.length_replicate 512 0)
     sampleBitmap_length rfl rfl (Or.inl (by decide))⟩

/-- C6: when the requested hash is the non-empty `h` and nothing is pending,
after `receiveNewIcon(h, b)` with a 512-byte `b` and then `update()` the cache
index contains `h`, the render buffer is the 64x64 conversion of `b` with set
bits in RGB565 blue (0x001F) and clear bits in RGB565 white (0xFFFF), which is
the row-major, most-significant-bit-first reading of `b`, the dirty flag is set
and the pending hash is empty. -/
theorem C6_deliver_then_reconcile (s : Data.details) (h : String) (b : List Nat)
    (hne : h ≠ "") (hb : b.length = ICON_BITMAP_BUFFER_SIZE)
    (hreq : s.displayIconHash = h) (hpend : s.receivedIconHash = "") (hwf : s.WF) :
    isIconExisted (update (receiveNewIcon s h b)) h = true ∧
    (update (receiveNewIcon s h b)).iconRenderBuffer =
      convert1BitBitmapToRgb565 s.iconRenderBuffer b ICON_WIDTH ICON_HEIGHT
        (lv_color_to_u16 (lv_color_make 0 0 255))
        (lv_color_to_u16 (lv_color_make 255 255 255)) false ∧
    (update (receiveNewIcon s h b)).iconRenderBuffer =
      referenceConversion b 64 64 0x001F 0xFFFF ∧
    (update (receiveNewIcon s h b)).iconDirty = true ∧
    (update (receiveNewIcon s h b)).receivedIconHash = "" := by
  obtain ⟨hrb, -, hrender⟩ := hwf
  have hne2 : h ≠ s.receivedIconHash := by
    rw [hpend]
    exact hne
  have hrecv : receiveNewIcon s h b =
      { s with receivedIconHash := h, receivedIconBitmapBuffer := b } := by
    rw [receiveNewIcon_of_ne s h b hne2, memcpy_full _ b _ hrb hb]
  have hconv : convert1BitBitmapToRgb565 s.iconRenderBuffer b ICON_WIDTH ICON_HEIGHT
        (lv_color_to_u16 (lv_color_make 0 0 255))
        (lv_color_to_u16 (lv_color_make 255 255 255)) false =
      referenceConversion b 64 64 0x001F 0xFFFF :=
    convert_eq_reference s.iconRenderBuffer b 64 64 0x001F 0xFFFF (by decide) hrender
  rw [hrecv]
  have hu := update_matching
    { s with receivedIconHash := h, receivedIconBitmapBuffer := b } hne hreq.symm
  exact ⟨hu.1, hu.2.1, hu.2.1.trans hconv, hu.2.2.1, hu.2.2.2⟩

/-- C6 witness: the icon `abc` is requested, then delivered and reconciled. -/
theorem C6_deliver_then_reconcile_witness :
    awaitingState.displayIconHash = "abc" ∧ awaitingState.receivedIconHash = "" ∧
    isIconExisted (update (receiveNewIcon awaitingState "abc" sampleBitmap)) "abc" = true ∧
    (update (receiveNewIcon awaitingState "abc" sampleBitmap)).iconRenderBuffer =
      referenceConversion sampleBitmap 64 64 0x001F 0xFFFF ∧
    (update (receiveNewIcon awaitingState "abc" sampleBitmap)).iconDirty = true ∧
    (update (receiveNewIcon awaitingState "abc" sampleBitmap)).receivedIconHash = "" :=
  have w := C6_deliver_then_reconcile awaitingState "abc" sampleBitmap (by decide)
    sampleBitmap_length rfl rfl awaitingState_WF
  ⟨rfl, rfl, w.1, w.2.2.1, w.2.2.2.1, w.2.2.2.2⟩

/-- C7: for a non-empty hash `h` that is not in the cache index and differs
from the requested hash, `setIconHash(h)` only sets the requested hash: the
render buffer, the dirty flag, the cache index, the stored files and the
pending hash and bitmap are as before. -/
theorem C7_request_uncached (s : Data.details) (h : String)
    (hne : h ≠ "") (hnc : isIconExisted s h = false) (hdiff : h ≠ s.displayIconHash) :
    setIconHash s h = { s with displayIconHash := h } ∧
    (setIconHash s h).displayIconHash = h ∧
    (setIconHash s h).iconRenderBuffer = s.iconRenderBuffer ∧
    (setIconHash s h).iconDirty = s.iconDirty ∧
    (setIconHash s h).availableIcons = s.availableIcons ∧
    (setIconHash s h).fs = s.fs ∧
    (setIconHash s h).receivedIconHash = s.receivedIconHash ∧
    (setIconHash s h).receivedIconBitmapBuffer = s.receivedIconBitmapBuffer := by
  have hnc2 : isIconExisted { s with displayIconHash := h } h = false := hnc
  have e : setIconHash s h = { s with displayIconHash := h } := by
    unfold setIconHash
    simp only [if_neg hdiff, if_neg hne, hnc2, Bool.false_eq_true, if_false]
  rw [e]
  exact ⟨rfl, rfl, rfl, rfl, rfl, rfl, rfl, rfl⟩

/-- C7 witness: `abc` is requested in the fresh state. -/
theorem C7_request_uncached_witness :
    setIconHash sampleState "abc" = { sampleState with displayIconHash := "abc" } :=
  (C7_request_uncached sampleState "abc" (by decide) (by decide) (by decide)).1

/-- C8: a second `receiveNewIcon` with the hash of the first, before any
`update()`, leaves the state of the first: pending hash and pending bitmap are
those of the first delivery. -/
theorem C8_duplicate_delivery (s : Data.details) (h : String) (b b' : List Nat) :
    receiveNewIcon (receiveNewIcon s h b) h b' = receiveNewIcon s h b ∧
    (receiveNewIcon (receiveNewIcon s h b) h b').receivedIconHash =
      (receiveNewIcon s h b).receivedIconHash ∧
    (receiveNewIcon (receiveNewIcon s h b) h b').receivedIconBitmapBuffer =
      (receiveNewIcon s h b).receivedIconBitmapBuffer := by
  have e : receiveNewIcon (receiveNewIcon s h b) h b' = receiveNewIcon s h b := by
    have hh := receiveNewIcon_receivedIconHash s h b
    generalize receiveNewIcon s h b = t at hh
    unfold receiveNewIcon
    rw [if_pos hh.symm]
  rw [e]
  exact ⟨rfl, rfl, rfl⟩

/-- C9: when the cache index does not contain `hash`, after `saveIcon(hash, b)`
and `saveIcon(hash, b')` the index contains `hash` exactly once, and the second
call leaves the state of the first, with no further `file.write`. -/
theorem C9_save_idempotent (s : Data.details) (hash : String) (b b' : List Nat)
    (hnew : hash ∉ s.availableIcons) :
    (saveIcon (saveIcon s hash b) hash b').availableIcons.count hash = 1 ∧
    saveIcon (saveIcon s hash b) hash b' = saveIcon s hash b ∧
    (saveIcon (saveIcon s hash b) hash b').fs.writes = (saveIcon s hash b).fs.writes ∧
    (saveIcon (saveIcon s hash b) hash b').fs.files = (saveIcon s hash b).fs.files ∧
    (saveIcon (saveIcon s hash b) hash b').availableIcons = s.availableIcons ++ [hash] := by
  have hex : isIconExisted s hash = false := by
    simp [isIconExisted, hnew]
  have e : saveIcon (saveIcon s hash b) hash b' = saveIcon s hash b :=
    saveIcon_of_existed _ hash b' (isIconExisted_saveIcon s hash b)
  rw [e]
  refine ⟨?_, rfl, rfl, rfl, ?_⟩
  · rw [saveIcon_of_not_existed s hash b hex]
    simp [List.count_eq_zero_of_not_mem hnew]
  · rw [saveIcon_of_not_existed s hash b hex]

/-- C9 witness: `abc` saved twice into the fresh state. -/
theorem C9_save_idempotent_witness :
    "abc" ∉ sampleState.availableIcons ∧
    (saveIcon (saveIcon sampleState "abc" sampleBitmap) "abc" blankBitmap).availableIcons.count
      "abc" = 1 ∧
    saveIcon (saveIcon sampleState "abc" sampleBitmap) "abc" blankBitmap =
      saveIcon sampleState "abc" sampleBitmap :=
  have w := C9_save_idempotent sampleState "abc" sampleBitmap blankBitmap (by decide)
  ⟨by decide, w.1, w.2.1⟩

/-- C10: `isIconExisted(hash)` is false on the empty index, and stays false on
an index without `hash` however many other hashes are saved; it is true right
after `saveIcon(hash, b)`, in every state. -/
theorem C10_exists_before_and_after_save (s : Data.details) (hash : String) :
    (s.availableIcons = [] → isIconExisted s hash = false) ∧
    (∀ saves : List (String × List Nat), hash ∉ s.availableIcons →
      (∀ e ∈ saves, e.1 ≠ hash) →
      isIconExisted (saves.foldl (fun t e => saveIcon t e.1 e.2) s) hash = false) ∧
    (∀ b : List Nat, isIconExisted (saveIcon s hash b) hash = true) := by
  refine ⟨?_, ?_, fun b => isIconExisted_saveIcon s hash b⟩
  · intro h0
    simp [isIconExisted, h0]
  · intro saves
    induction saves generalizing s with
    | nil =>
      intro hnot _
      simp [isIconExisted, hnot]
    | cons e rest ih =>
      intro hnot hall
      rw [List.foldl_cons]
      apply ih
      · have hne : e.1 ≠ hash := hall e (List.mem_cons_self e rest)
        cases hex : isIconExisted s e.1
        · rw [saveIcon_of_not_existed s e.1 e.2 hex]
          simp only [List.mem_append, List.mem_singleton, not_or]
          exact ⟨hnot, fun hh => hne hh.symm⟩
        · rw [saveIcon_of_existed s e.1 e.2 hex]
          exact hnot
      · intro e2 he2
        exact hall e2 (List.mem_cons_of_mem e he2)

/-- C10 witness: in the fresh state `abc` is absent, stays absent when `xyz` is
saved, and is present once saved. -/
theorem C10_exists_before_and_after_save_witness :
    isIconExisted sampleState "abc" = false ∧
    isIconExisted (saveIcon sampleState "xyz" sampleBitmap) "abc" = false ∧
    isIconExisted (saveIcon sampleState "abc" sampleBitmap) "abc" = true :=
  have w := C10_exists_before_and_after_save sampleState "abc"
  ⟨w.1 rfl,
   w.2.1 [("xyz", sampleBitmap)] (by decide) (by decide),
   w.2.2 sampleBitmap⟩

/-- C11: for every destination, source, size and colours, the conversion with
`invert = true` is the conversion with `invert = false` and the two colours
exchanged; on a destination of `width * height` pixels, pixel `j` takes
`bgColor` where the tested bit is set and `color` where it is clear, the
opposite of `invert = false`; the source is only an input.  For the source byte
`0x80`, width 8, height 1: `invert = false` gives `color` then seven times
`bgColor`, `invert = true` gives `bgColor` then seven times `color`. -/
theorem C11_invert_exchanges_colours (dst src : List Nat) (w h color bgColor : Nat) :
    convert1BitBitmapToRgb565 dst src w h color bgColor true =
      convert1BitBitmapToRgb565 dst src w h bgColor color false ∧
    (dst.length = w * h → ∀ j, j < w * h →
      (convert1BitBitmapToRgb565 dst src w h color bgColor true)[j]? =
        some (if pixelOn src w (j / w) (j % w) then bgColor else color) ∧
      (convert1BitBitmapToRgb565 dst src w h color bgColor false)[j]? =
        some (if pixelOn src w (j / w) (j % w) then color else bgColor)) ∧
    convert1BitBitmapToRgb565 [0, 0, 0, 0, 0, 0, 0, 0] [0x80] 8 1 color bgColor false =
      [color, bgColor, bgColor, bgColor, bgColor, bgColor, bgColor, bgColor] ∧
    convert1BitBitmapToRgb565 [0, 0, 0, 0, 0, 0, 0, 0] [0x80] 8 1 color bgColor true =
      [bgColor, color, color, color, color, color, color, color] := by
  have p0 : pixelOn [0x80] 8 0 0 = true := by decide
  have p1 : pixelOn [0x80] 8 0 1 = false := by decide
  have p2 : pixelOn [0x80] 8 0 2 = false := by decide
  have p3 : pixelOn [0x80] 8 0 3 = false := by decide
  have p4 : pixelOn [0x80] 8 0 4 = false := by decide
  have p5 : pixelOn [0x80] 8 0 5 = false := by decide
  have p6 : pixelOn [0x80] 8 0 6 = false := by decide
  have p7 : pixelOn [0x80] 8 0 7 = false := by decide
  refine ⟨rfl, ?_, ?_, ?_⟩
  · intro hd j hj
    constructor
    · rw [convert_eq_map dst src w h color bgColor true hd, List.getElem?_map,
        List.getElem?_range hj]
      rfl
    · rw [convert_eq_map dst src w h color bgColor false hd, List.getElem?_map,
        List.getElem?_range hj]
      rfl
  · rw [convert_eq_map [0, 0, 0, 0, 0, 0, 0, 0] [0x80] 8 1 color bgColor false rfl]
    simp [List.range, List.range.loop, p0, p1, p2, p3, p4, p5, p6, p7]
  · rw [convert_eq_map [0, 0, 0, 0, 0, 0, 0, 0] [0x80] 8 1 color bgColor true rfl]
    simp [List.range, List.range.loop, p0, p1, p2, p3, p4, p5, p6, p7]

/-- C11 witness: the source byte `0x80` at width 8, height 1, colours 1 and 0,
pixel 0. -/
theorem C11_invert_exchanges_colours_witness :
    (convert1BitBitmapToRgb565 [0, 0, 0, 0, 0, 0, 0, 0] [0x80] 8 1 1 0 true)[0]? =
        some (if pixelOn [0x80] 8 (0 / 8) (0 % 8) then 0 else 1) ∧
    (convert1BitBitmapToRgb565 [0, 0, 0, 0, 0, 0, 0, 0] [0x80] 8 1 1 0 false)[0]? =
        some (if pixelOn [0x80] 8 (0 / 8) (0 % 8) then 1 else 0) :=
  (C11_invert_exchanges_colours [0, 0, 0, 0, 0, 0, 0, 0] [0x80] 8 1 1 0).2.1 rfl 0 (by decide)

/-- C12 (code defect): `abc` is in the cache index and its file is missing;
`loadIcon` still converts the bitmap left in `iconBitmapBuffer` into the render
buffer and sets the dirty flag.  With a stored file of one byte, that byte is
read over the start of the buffer and the mixture is converted. -/
theorem C12_loadIcon_ignores_read_failure :
    isIconExisted staleState "abc" = true ∧
    filesLookup staleState.fs.files (iconPath "abc") = none ∧
    staleState.iconDirty = false ∧
    (loadIcon staleState "abc").iconDirty = true ∧
    (loadIcon staleState "abc").iconRenderBuffer =
      referenceConversion sampleBitmap 64 64 0x001F 0xFFFF ∧
    (loadIcon staleState "abc").iconRenderBuffer ≠ staleState.iconRenderBuffer ∧
    isIconExisted shortFileState "abc" = true ∧
    filesLookup shortFileState.fs.files (iconPath "abc") = some [0xFF] ∧
    (loadIcon shortFileState "abc").iconDirty = true ∧
    (loadIcon shortFileState "abc").iconBitmapBuffer =
      0xFF :: List.drop 1 shortFileState.iconBitmapBuffer := by
  have hex : isIconExisted staleState "abc" = true := by decide
  have hp : iconPath "abc" = "/abc.bin" := by decide
  have hnone : filesLookup staleState.fs.files (iconPath "abc") = none := by
    rw [hp]
    rfl
  have hread : readFile staleState.fs (iconPath "abc") staleState.iconBitmapBuffer
      ICON_BITMAP_BUFFER_SIZE = (0, sampleBitmap) :=
    readFile_missing _ _ _ _ hnone
  have hrender : (loadIcon staleState "abc").iconRenderBuffer =
      referenceConversion sampleBitmap 64 64 0x001F 0xFFFF := by
    rw [loadIcon_existed_render _ _ hex (List.length_replicate 4096 0), hread]
  have hex2 : isIconExisted shortFileState "abc" = true := by decide
  have hsome : filesLookup shortFileState.fs.files (iconPath "abc") = some [0xFF] := by
    rw [hp]
    exact if_pos rfl
  have hread2 : readFile shortFileState.fs (iconPath "abc") shortFileState.iconBitmapBuffer
      ICON_BITMAP_BUFFER_SIZE = (1, 0xFF :: List.drop 1 shortFileState.iconBitmapBuffer) :=
    readFile_found _ _ _ [0xFF] _ rfl hsome (by decide)
  refine ⟨hex, hnone, rfl, loadIcon_existed_dirty _ _ hex, hrender, ?_, hex2, hsome,
    loadIcon_existed_dirty _ _ hex2, ?_⟩
  · rw [hrender]
    intro h
    have h0 : (referenceConversion sampleBitmap 64 64 0x001F 0xFFFF)[0]? =
        staleState.iconRenderBuffer[0]? := by rw [h]
    have hb : bitmapBit sampleBitmap 0 = true := by decide
    have hl : (referenceConversion sampleBitmap 64 64 0x001F 0xFFFF)[0]? = some 0x001F := by
      unfold referenceConversion
      rw [List.getElem?_map, List.getElem?_range (by decide), Option.map_some', hb]
      rfl
    have hr : staleState.iconRenderBuffer[0]? = some 0 := by
      show (List.replicate 4096 0)[0]? = some 0
      exact List.getElem?_replicate_of_lt (by decide)
    rw [hl, hr] at h0
    exact absurd h0 (by decide)
  · rw [loadIcon_iconBitmapBuffer _ _ hex2, hread2]

/-- C13 (code defect): on a file system that cannot open the file for writing,
`saveIcon(abc, b)` stores nothing and still appends `abc` to the cache index,
so that `isIconExisted(abc)` is true while no file is stored for it. -/
theorem C13_saveIcon_indexes_after_failed_write :
    unwritableState.fs.openWriteOk = false ∧
    isIconExisted unwritableState "abc" = false ∧
    (saveIcon unwritableState "abc" sampleBitmap).fs = unwritableState.fs ∧
    (saveIcon unwritableState "abc" sampleBitmap).availableIcons = ["abc"] ∧
    isIconExisted (saveIcon unwritableState "abc" sampleBitmap) "abc" = true ∧
    filesLookup (saveIcon unwritableState "abc" sampleBitmap).fs.files (iconPath "abc")
      = none := by
  have hex : isIconExisted unwritableState "abc" = false := by decide
  rw [saveIcon_of_not_existed _ _ _ hex]
  exact ⟨rfl, hex, rfl, rfl, by decide, rfl⟩

/-- C14: after `update()` the pending hash is empty in every state; `update()`
on a state whose pending hash is empty changes nothing; hence `update()` twice
is `update()` once. -/
theorem C14_update_consumes_pending (s : Data.details) :
    (update s).receivedIconHash = "" ∧
    (s.receivedIconHash = "" → update s = s) ∧
    update (update s) = update s :=
  ⟨update_receivedIconHash s, update_of_no_pending s,
   update_of_no_pending (update s) (update_receivedIconHash s)⟩

/-- C14 witness: nothing is pending in the fresh state. -/
theorem C14_update_consumes_pending_witness :
    sampleState.receivedIconHash = "" ∧ update sampleState = sampleState :=
  ⟨rfl, (C14_update_consumes_pending sampleState).2.1 rfl⟩

/-- C15: for every byte sequence `data`, `sendData(data, n)` with `n` the
length of `data` is a total function whose trace is the opening of the
transaction, then `ceil(n / 4096)` calls of `transferBytes`, each of 1 to
4096 bytes and all but the last of 4096 bytes, whose payloads concatenated in
order are `data`, then the closing of the transaction; with `n = 0` there is no
`transferBytes` call. -/
theorem C15_sendData_chunks (d : SimpleSt7789) (data : List Nat) :
    (∃ chunks : List (List Nat),
      sendData d data data.length =
        [BusEvent.beginTransaction,
         BusEvent.digitalWrite d._pinCs false,
         BusEvent.digitalWrite d._pinDc true]
        ++ chunks.map BusEvent.transferBytes
        ++ [BusEvent.digitalWrite d._pinCs true, BusEvent.endTransaction] ∧
      chunks.length = (data.length + 4095) / 4096 ∧
      (∀ c ∈ chunks, 1 ≤ c.length ∧ c.length ≤ 4096) ∧
      (∀ c ∈ chunks.dropLast, c.length = 4096) ∧
      chunks.flatten = data) ∧
    sendData d [] 0 =
      [BusEvent.beginTransaction,
       BusEvent.digitalWrite d._pinCs false,
       BusEvent.digitalWrite d._pinDc true,
       BusEvent.digitalWrite d._pinCs true,
       BusEvent.endTransaction] := by
  constructor
  · obtain ⟨chunks, hloop, hlen, hall, hinit, hcat⟩ :=
      transferLoop_chunks data data.length (Nat.le_refl _) data.length 0 rfl (Nat.zero_le _)
    refine ⟨chunks, ?_, ?_, hall, hinit, ?_⟩
    · unfold sendData
      rw [hloop]
    · rw [hlen, Nat.sub_zero]
    · rw [hcat, List.drop_zero, Nat.sub_zero, List.take_length]
  · unfold sendData
    rw [transferLoop, dif_neg (Nat.lt_irrefl 0)]
    rfl

/-- C15 witness: three bytes are sent in one chunk. -/
theorem C15_sendData_chunks_witness :
    ∃ chunks : List (List Nat),
      sendData sampleLcd [1, 2, 3] [1, 2, 3].length =
        [BusEvent.beginTransaction,
         BusEvent.digitalWrite sampleLcd._pinCs false,
         BusEvent.digitalWrite sampleLcd._pinDc true]
        ++ chunks.map BusEvent.transferBytes
        ++ [BusEvent.digitalWrite sampleLcd._pinCs true, BusEvent.endTransaction] ∧
      chunks.length = ([1, 2, 3].length + 4095) / 4096 ∧
      (∀ c ∈ chunks, 1 ≤ c.length ∧ c.length ≤ 4096) ∧
      (∀ c ∈ chunks.dropLast, c.length = 4096) ∧
      chunks.flatten = [1, 2, 3] :=
  (C15_sendData_chunks sampleLcd [1, 2, 3]).1

/-- C16 (as stated, refuted): with the data-sheet register values and rotation
180, the second command that `init()` puts on the bus is MADCTL (0x36) with
payload `[0x00]`, sent by `setRotation`, not the pixel-format command, so the
command sequence is not the one of the claim. -/
theorem C16_init_sends_madctl_after_sleep_out :
    commandsOf (init sampleRegisters sampleLcd).2 =
      [(0x11, []), (0x36, [0x00]), (0x3A, [0x05]), (0xB0, [0x00, 0xE8]),
       (0xB2, [0x0C, 0x0C, 0x00, 0x33, 0x33]), (0xB7, [0x35]), (0xBB, [0x35]),
       (0xC0, [0x2C]), (0xC2, [0x01]), (0xC3, [0x13]), (0xC4, [0x20]), (0xC6, [0x0F]),
       (0xD0, [0xA4, 0xA1]), (0xD6, [0xA1]),
       (0xE0, [0xF0, 0x00, 0x04, 0x04, 0x04, 0x05, 0x29, 0x33, 0x3E, 0x38, 0x12, 0x12, 0x28,
         0x30]),
       (0xE1, [0xF0, 0x07, 0x0A, 0x0D, 0x0B, 0x07, 0x28, 0x33, 0x3E, 0x36, 0x14, 0x14, 0x29,
         0x32]),
       (0x21, []), (0x11, []), (0x29, [])] ∧
    commandsOf (init sampleRegisters sampleLcd).2 ≠
      [(0x11, []), (0x3A, [0x05]), (0xB0, [0x00, 0xE8]),
       (0xB2, [0x0C, 0x0C, 0x00, 0x33, 0x33]), (0xB7, [0x35]), (0xBB, [0x35]),
       (0xC0, [0x2C]), (0xC2, [0x01]), (0xC3, [0x13]), (0xC4, [0x20]), (0xC6, [0x0F]),
       (0xD0, [0xA4, 0xA1]), (0xD6, [0xA1]),
       (0xE0, [0xF0, 0x00, 0x04, 0x04, 0x04, 0x05, 0x29, 0x33, 0x3E, 0x38, 0x12, 0x12, 0x28,
         0x30]),
       (0xE1, [0xF0, 0x07, 0x0A, 0x0D, 0x0B, 0x07, 0x28, 0x33, 0x3E, 0x36, 0x14, 0x14, 0x29,
         0x32]),
       (0x21, []), (0x11, []), (0x29, [])] := by
  rw [init_commands]
  decide

/-- C16 (amended): the commands that `init()` puts on the bus are, in order and
with no other command in between: sleep-out; MADCTL with the one byte of the
configured rotation; pixel format with payload 0x05; the vendor tuning commands
with their literal payloads; display inversion on; sleep-out; display on.  The
trace ends, after the last command, with what `setBrightness(100)` does: one
write of duty 1023 when a backlight line is configured, nothing otherwise. -/
theorem C16_init_sequence (R : Registers) (d : SimpleSt7789) :
    commandsOf (init R d).2 =
      [(R.REG_SLPOUT % 256, []),
       (R.REG_MADCTL % 256, [madctlByte R d._rotation]),
       (R.REG_COLMOD % 256, [0x05]),
       (R.REG_RAMCTRL % 256, [0x00, 0xE8]),
       (R.REG_PORCTRL % 256, [0x0C, 0x0C, 0x00, 0x33, 0x33]),
       (R.REG_GCTRL % 256, [0x35]),
       (R.REG_VCOMS % 256, [0x35]),
       (R.REG_LCMCTRL % 256, [0x2C]),
       (R.REG_VDVVRHEN % 256, [0x01]),
       (R.REG_VRHS % 256, [0x13]),
       (R.REG_VDVS % 256, [0x20]),
       (R.REG_FRCTR2 % 256, [0x0F]),
       (R.REG_PWCTRL1 % 256, [0xA4, 0xA1]),
       (0xD6, [0xA1]),
       (R.REG_PVGAMCTRL % 256,
         [0xF0, 0x00, 0x04, 0x04, 0x04, 0x05, 0x29, 0x33, 0x3E, 0x38, 0x12, 0x12, 0x28, 0x30]),
       (R.REG_NVGAMCTRL % 256,
         [0xF0, 0x07, 0x0A, 0x0D, 0x0B, 0x07, 0x28, 0x33, 0x3E, 0x36, 0x14, 0x14, 0x29, 0x32]),
       (R.REG_INVON % 256, []),
       (R.REG_SLPOUT % 256, []),
       (R.REG_DISPON % 256, [])] ∧
    (∃ before : List BusEvent,
      (init R d).2 =
        before ++ sendCommand d R.REG_DISPON none 0 ++
          (if d._pinBacklight = 255 then []
           else [BusEvent.ledcWrite d._pinBacklight 1023])) ∧
    (init R d).1 = d := by
  refine ⟨init_commands R d, ?_, rfl⟩
  have hb := setBrightness_eq d 100 (by decide)
  have h100 : min 100 100 * 1023 / 100 = 1023 := by decide
  rw [h100] at hb
  rw [← hb]
  exact ⟨_, rfl⟩

/-- C17: for every `percent` below 256, `setBrightness(percent)` with a
backlight line configured makes exactly one `ledcWrite`, of duty
`min(percent, 100) * 1023 / 100` (rounded down), and makes no call when the
backlight pin is 255; that duty is at most 1023, is 0 for percent 0, is 1023
from percent 100 on, and does not decrease when percent grows. -/
theorem C17_brightness_mapping (d : SimpleSt7789) (percent : Nat) (hp : percent < 256) :
    (d._pinBacklight ≠ 255 →
      setBrightness d percent =
        [BusEvent.ledcWrite d._pinBacklight (min percent 100 * 1023 / 100)]) ∧
    (d._pinBacklight = 255 → setBrightness d percent = []) ∧
    min percent 100 * 1023 / 100 ≤ 1023 ∧
    (percent = 0 → min percent 100 * 1023 / 100 = 0) ∧
    (100 ≤ percent → min percent 100 * 1023 / 100 = 1023) ∧
    (∀ q : Nat, q ≤ percent → min q 100 * 1023 / 100 ≤ min percent 100 * 1023 / 100) := by
  have he := setBrightness_eq d percent hp
  refine ⟨?_, ?_, ?_, ?_, ?_, ?_⟩
  · intro hb
    rw [he, if_neg hb]
  · intro hb
    rw [he, if_pos hb]
  · have : min percent 100 ≤ 100 := Nat.min_le_right _ _
    omega
  · intro h0
    subst h0
    rfl
  · intro h100
    rw [Nat.min_eq_right h100]
  · intro q hq
    apply Nat.div_le_div_right
    apply Nat.mul_le_mul_right
    have h1 : min q 100 ≤ 100 := Nat.min_le_right _ _
    have h2 : min q 100 ≤ q := Nat.min_le_left _ _
    exact Nat.le_min.mpr ⟨by omega, h1⟩

/-- C17 witness: 50 percent on the sample driver, whose backlight is pin 7,
gives duty 511. -/
theorem C17_brightness_mapping_witness :
    sampleLcd._pinBacklight ≠ 255 ∧
    setBrightness sampleLcd 50 = [BusEvent.ledcWrite 7 511] ∧
    min 30 100 * 1023 / 100 ≤ min 50 100 * 1023 / 100 :=
  have w := C17_brightness_mapping sampleLcd 50 (by decide)
  ⟨by decide, w.1 (by decide), w.2.2.2.2.2 30 (by decide)⟩

/-- C18: after `listFiles()` the cache index is, in enumeration order, the list
of enumerated file names that end in `.bin`, each without its last four
characters; it does not depend on the index before, and nothing else changes.
A name `h + ".bin"` ends in `.bin` and contributes exactly `h`; and for a `h`
without `/`, that is the name under which the file written by `saveIcon` for
`h` is enumerated. -/
theorem C18_listFiles_rebuilds_index (s : Data.details) :
    (listFiles s).availableIcons =
      ((enumerateNames s.fs).filter (fun n => endsWith n ".bin")).map
        (fun n => String.mk (n.data.take (n.data.length - 4))) ∧
    listFiles s = { s with availableIcons := (listFiles s).availableIcons } ∧
    (∀ prior : List String,
      (listFiles { s with availableIcons := prior }).availableIcons =
        (listFiles s).availableIcons) ∧
    (∀ (h : String) (icons : List String),
      endsWith (h ++ ".bin") ".bin" = true ∧
      listFilesStep icons (h ++ ".bin") = icons ++ [h]) ∧
    (∀ h : String, '/' ∉ h.data → pathToFileName (iconPath h) = h ++ ".bin") := by
  refine ⟨?_, rfl, fun _ => rfl, ?_, pathToFileName_iconPath⟩
  · unfold listFiles
    simp only []
    rw [listFiles_foldl, List.nil_append]
    rfl
  · intro h icons
    refine ⟨endsWith_append h ".bin", ?_⟩
    unfold listFilesStep
    rw [endsWith_append h ".bin", if_pos rfl, substring_append_bin]

/-- C18 witness: the stored file `/abc.bin` is enumerated as `abc.bin` and
indexed as `abc`, whatever the index was. -/
theorem C18_listFiles_rebuilds_index_witness :
    '/' ∉ "abc".data ∧
    pathToFileName (iconPath "abc") = "abc" ++ ".bin" ∧
    (listFiles { cachedState with availableIcons := ["zzz"] }).availableIcons = ["abc"] :=
  have w := C18_listFiles_rebuilds_index cachedState
  ⟨by decide, w.2.2.2.2 "abc" (by decide), (w.2.2.1 ["zzz"]).trans (by decide)⟩

/-- C19: when the requested hash is non-empty, `setIconHash("")` empties the
requested hash, sets every pixel of the render buffer to 0xFFFF, that is every
byte to 0xFF, sets the dirty flag and leaves the pending hash and bitmap, the
cache index and the file system as they were; `setIconHash` with the hash that
is already requested, empty or not, changes nothing. -/
theorem C19_request_empty_hash (s : Data.details) :
    (s.displayIconHash ≠ "" →
      (setIconHash s "").displayIconHash = "" ∧
      (setIconHash s "").iconRenderBuffer.length = s.iconRenderBuffer.length ∧
      (∀ p ∈ (setIconHash s "").iconRenderBuffer, p / 256 = 0xFF ∧ p % 256 = 0xFF) ∧
      (setIconHash s "").iconDirty = true ∧
      (setIconHash s "").receivedIconHash = s.receivedIconHash ∧
      (setIconHash s "").receivedIconBitmapBuffer = s.receivedIconBitmapBuffer ∧
      (setIconHash s "").availableIcons = s.availableIcons ∧
      (setIconHash s "").fs = s.fs) ∧
    (∀ hash : String, hash = s.displayIconHash → setIconHash s hash = s) := by
  constructor
  · intro h
    rw [setIconHash_empty s h]
    refine ⟨rfl, List.length_replicate _ _, ?_, rfl, rfl, rfl, rfl, rfl⟩
    intro p hp
    have hp2 : p = 0xFFFF := List.eq_of_mem_replicate hp
    subst hp2
    exact ⟨rfl, rfl⟩
  · intro hash hh
    subst hh
    exact setIconHash_same s

/-- C19 witness: the empty hash is requested while `abc` is, and `abc` is
requested again. -/
theorem C19_request_empty_hash_witness :
    awaitingState.displayIconHash ≠ "" ∧
    (setIconHash awaitingState "").displayIconHash = "" ∧
    (setIconHash awaitingState "").iconDirty = true ∧
    setIconHash awaitingState "abc" = awaitingState :=
  have w := C19_request_empty_hash awaitingState
  ⟨by decide, (w.1 (by decide)).1, (w.1 (by decide)).2.2.2.1, w.2 "abc" rfl⟩

/-- C20: for every opcode and every payload pointer to at least `size` bytes
with `size > 0`, the trace of `sendCommand` is: begin transaction, chip select
low, data/command low, the opcode byte, data/command high, the first `size`
payload bytes in order (in `transferBytes` calls of 1 to 4096 bytes), chip
select high, end transaction; with a null pointer or `size = 0` it is the same
without the data/command high and the payload.  Seen as commands, it is the
one opcode with exactly that payload. -/
theorem C20_sendCommand_framing (d : SimpleSt7789) (command : Nat) :
    (∀ (data : List Nat) (size : Nat), 0 < size → size ≤ data.length →
      ∃ chunks : List (List Nat),
        sendCommand d command (some data) size =
          [BusEvent.beginTransaction,
           BusEvent.digitalWrite d._pinCs false,
           BusEvent.digitalWrite d._pinDc false,
           BusEvent.transfer (command % 256),
           BusEvent.digitalWrite d._pinDc true]
          ++ chunks.map BusEvent.transferBytes
          ++ [BusEvent.digitalWrite d._pinCs true, BusEvent.endTransaction] ∧
        chunks.flatten = data.take size ∧
        (∀ c ∈ chunks, 1 ≤ c.length ∧ c.length ≤ 4096) ∧
        commandsOf (sendCommand d command (some data) size) =
          [(command % 256, data.take size)]) ∧
    (∀ size : Nat,
      sendCommand d command none size =
        [BusEvent.beginTransaction,
         BusEvent.digitalWrite d._pinCs false,
         BusEvent.digitalWrite d._pinDc false,
         BusEvent.transfer (command % 256),
         BusEvent.digitalWrite d._pinCs true,
         BusEvent.endTransaction]) ∧
    (∀ data : List Nat,
      sendCommand d command (some data) 0 =
        [BusEvent.beginTransaction,
         BusEvent.digitalWrite d._pinCs false,
         BusEvent.digitalWrite d._pinDc false,
         BusEvent.transfer (command % 256),
         BusEvent.digitalWrite d._pinCs true,
         BusEvent.endTransaction]) := by
  refine ⟨?_, fun _ => rfl, fun _ => rfl⟩
  intro data size h0 hsize
  obtain ⟨chunks, hloop, -, hall, -, hcat⟩ :=
    transferLoop_chunks data size hsize size 0 rfl (Nat.zero_le _)
  rw [List.drop_zero, Nat.sub_zero] at hcat
  have hne : size ≠ 0 := by omega
  have htrace : sendCommand d command (some data) size =
      [BusEvent.beginTransaction,
       BusEvent.digitalWrite d._pinCs false,
       BusEvent.digitalWrite d._pinDc false,
       BusEvent.transfer (command % 256),
       BusEvent.digitalWrite d._pinDc true]
      ++ chunks.map BusEvent.transferBytes
      ++ [BusEvent.digitalWrite d._pinCs true, BusEvent.endTransaction] := by
    unfold sendCommand
    simp only [hne, ne_eq, not_false_eq_true, if_true, hloop]
    simp
  refine ⟨chunks, htrace, hcat, hall, ?_⟩
  rw [htrace]
  show (command % 256,
      payloadOf (BusEvent.digitalWrite d._pinDc true ::
        (chunks.map BusEvent.transferBytes
          ++ [BusEvent.digitalWrite d._pinCs true, BusEvent.endTransaction]))) ::
    commandsOf (BusEvent.digitalWrite d._pinDc true ::
        (chunks.map BusEvent.transferBytes
          ++ [BusEvent.digitalWrite d._pinCs true, BusEvent.endTransaction])) = _
  have hpay : payloadOf (BusEvent.digitalWrite d._pinDc true ::
        (chunks.map BusEvent.transferBytes
          ++ [BusEvent.digitalWrite d._pinCs true, BusEvent.endTransaction])) =
      chunks.flatten := by
    show payloadOf (chunks.map BusEvent.transferBytes
          ++ [BusEvent.digitalWrite d._pinCs true, BusEvent.endTransaction]) = _
    rw [payloadOf_chunks]
    simp [payloadOf]
  have hcmd : commandsOf (BusEvent.digitalWrite d._pinDc true ::
        (chunks.map BusEvent.transferBytes
          ++ [BusEvent.digitalWrite d._pinCs true, BusEvent.endTransaction])) = [] := by
    show commandsOf (chunks.map BusEvent.transferBytes
          ++ [BusEvent.digitalWrite d._pinCs true, BusEvent.endTransaction]) = _
    rw [commandsOf_chunks]
    rfl
  rw [hpay, hcmd, hcat]

/-- C20 witness: opcode 0x2A with the four payload bytes 0, 0, 1, 63 on the
sample driver. -/
theorem C20_sendCommand_framing_witness :
    ∃ chunks : List (List Nat),
      sendCommand sampleLcd 0x2A (some [0, 0, 1, 63]) 4 =
        [BusEvent.beginTransaction,
         BusEvent.digitalWrite sampleLcd._pinCs false,
         BusEvent.digitalWrite sampleLcd._pinDc false,
         BusEvent.transfer (0x2A % 256),
         BusEvent.digitalWrite sampleLcd._pinDc true]
        ++ chunks.map BusEvent.transferBytes
        ++ [BusEvent.digitalWrite sampleLcd._pinCs true, BusEvent.endTransaction] ∧
      chunks.flatten = List.take 4 [0, 0, 1, 63] ∧
      (∀ c ∈ chunks, 1 ≤ c.length ∧ c.length ≤ 4096) ∧
      commandsOf (sendCommand sampleLcd 0x2A (some [0, 0, 1, 63]) 4) =
        [(0x2A % 256, List.take 4 [0, 0, 1, 63])] :=
  (C20_sendCommand_framing sampleLcd 0x2A).1 [0, 0, 1, 63] 4 (by decide) (by decide)

/-- C22: for a width divisible by 8, the bit the code tests for pixel (x, y),
bit `7 - (x mod 8)` of byte `(y * width + x) div 8`, is bit number
`y * width + x` of the row-major, most-significant-bit-first bitmap, because
`(y * width + x) mod 8 = x mod 8`; on a destination of `width * height` pixels
the result is the reference conversion, at every pixel; and the stores of the
two loops, in order, go to the indices `0 .. width * height - 1`, each once.
This holds in particular for the 64x64 icons. -/
theorem C22_conversion_exact_for_width_multiple_of_8 (dst src : List Nat)
    (w h color bgColor : Nat) (hw : 8 ∣ w) :
    (∀ x y : Nat, (y * w + x) % 8 = x % 8) ∧
    (∀ x y : Nat, pixelOn src w y x = bitmapBit src (y * w + x)) ∧
    (dst.length = w * h →
      convert1BitBitmapToRgb565 dst src w h color bgColor false =
        referenceConversion src w h color bgColor) ∧
    (dst.length = w * h → ∀ x y : Nat, x < w → y < h →
      (convert1BitBitmapToRgb565 dst src w h color bgColor false)[y * w + x]? =
        some (if bitmapBit src (y * w + x) then color else bgColor)) ∧
    convert1BitBitmapToRgb565 dst src w h color bgColor false =
      (convertStores src w h color bgColor).foldl (fun d e => d.set e.1 e.2) dst ∧
    (convertStores src w h color bgColor).map Prod.fst = List.range (w * h) ∧
    (dst.length = ICON_WIDTH * ICON_HEIGHT →
      convert1BitBitmapToRgb565 dst src ICON_WIDTH ICON_HEIGHT color bgColor false =
        referenceConversion src 64 64 color bgColor) := by
  refine ⟨?_, fun x y => pixelOn_eq_bitmapBit src w y x hw,
    convert_eq_reference dst src w h color bgColor hw, ?_,
    convert_eq_stores dst src w h color bgColor false,
    convertStores_indices src w h color bgColor,
    convert_eq_reference dst src 64 64 color bgColor (by decide)⟩
  · intro x y
    obtain ⟨k, rfl⟩ := hw
    have e : y * (8 * k) = 8 * (y * k) := by ring
    rw [e]
    omega
  · intro hd x y hx hy
    have hlt : y * w + x < w * h := by
      have h1 : (y + 1) * w ≤ h * w := Nat.mul_le_mul_right w hy
      rw [Nat.succ_mul] at h1
      rw [Nat.mul_comm w h]
      omega
    rw [convert_eq_reference dst src w h color bgColor hw hd]
    unfold referenceConversion
    rw [List.getElem?_map, List.getElem?_range hlt]
    rfl

/-- C22 witness: a 64x64 destination and the all-ones bitmap. -/
theorem C22_conversion_exact_for_width_multiple_of_8_witness :
    8 ∣ 64 ∧
    convert1BitBitmapToRgb565 (List.replicate 4096 0) sampleBitmap 64 64 0x001F 0xFFFF false =
      referenceConversion sampleBitmap 64 64 0x001F 0xFFFF :=
  ⟨by decide,
   (C22_conversion_exact_for_width_multiple_of_8 (List.replicate 4096 0) sampleBitmap 64 64
     0x001F 0xFFFF (by decide)).2.2.1 (List.length_replicate 4096 0)⟩

/-- C23: with file opens succeeding, a non-empty hash `h` that is not in the
cache index, a 512-byte bitmap `b`, nothing pending and a requested hash other
than `h`, the sequences `setIconHash(h); receiveNewIcon(h, b); update()` and
`receiveNewIcon(h, b); update(); setIconHash(h)` both end with requested hash
`h`, the render buffer equal to the 64x64 conversion of `b`, the dirty flag
set, `h` in the cache index exactly once, the stored file of `h` equal to `b`
and the pending hash empty; the two final states are equal but for
`iconBitmapBuffer`, which the second sequence fills with `b`. -/
theorem C23_request_and_delivery_commute (s : Data.details) (h : String) (b : List Nat)
    (hne : h ≠ "") (hb : b.length = ICON_BITMAP_BUFFER_SIZE)
    (hnc : isIconExisted s h = false) (hpend : s.receivedIconHash = "")
    (hreq : s.displayIconHash ≠ h) (hwf : s.WF)
    (hw : s.fs.openWriteOk = true) (hr : s.fs.openReadOk = true) :
    (update (receiveNewIcon (setIconHash s h) h b)).displayIconHash = h ∧
    (setIconHash (update (receiveNewIcon s h b)) h).displayIconHash = h ∧
    (update (receiveNewIcon (setIconHash s h) h b)).iconRenderBuffer =
      referenceConversion b 64 64 0x001F 0xFFFF ∧
    (setIconHash (update (receiveNewIcon s h b)) h).iconRenderBuffer =
      referenceConversion b 64 64 0x001F 0xFFFF ∧
    (update (receiveNewIcon (setIconHash s h) h b)).iconDirty = true ∧
    (setIconHash (update (receiveNewIcon s h b)) h).iconDirty = true ∧
    (update (receiveNewIcon (setIconHash s h) h b)).availableIcons.count h = 1 ∧
    (setIconHash (update (receiveNewIcon s h b)) h).availableIcons.count h = 1 ∧
    filesLookup (update (receiveNewIcon (setIconHash s h) h b)).fs.files (iconPath h)
      = some b ∧
    filesLookup (setIconHash (update (receiveNewIcon s h b)) h).fs.files (iconPath h)
      = some b ∧
    (update (receiveNewIcon (setIconHash s h) h b)).receivedIconHash = "" ∧
    (setIconHash (update (receiveNewIcon s h b)) h).receivedIconHash = "" ∧
    setIconHash (update (receiveNewIcon s h b)) h =
      { update (receiveNewIcon (setIconHash s h) h b) with iconBitmapBuffer := b } := by
  obtain ⟨hrb, hbb, hrender⟩ := hwf
  have hconv : ∀ src : List Nat,
      convert1BitBitmapToRgb565 s.iconRenderBuffer src ICON_WIDTH ICON_HEIGHT
        (lv_color_to_u16 (lv_color_make 0 0 255))
        (lv_color_to_u16 (lv_color_make 255 255 255)) false =
      referenceConversion src 64 64 0x001F 0xFFFF :=
    fun src => convert_eq_reference s.iconRenderBuffer src 64 64 0x001F 0xFFFF (by decide)
      hrender
  have hnotmem : h ∉ s.availableIcons := by
    intro hm
    have := (isIconExisted_iff s h).mpr hm
    rw [hnc] at this
    exact Bool.noConfusion this
  have hcount : (s.availableIcons ++ [h]).count h = 1 := by
    simp [List.count_eq_zero_of_not_mem hnotmem]
  have hwrite : writeFile s.fs (iconPath h) b ICON_BITMAP_BUFFER_SIZE =
      { s.fs with
        files := filesStore s.fs.files (iconPath h) b,
        writes := s.fs.writes ++ [(iconPath h, b)] } := by
    rw [writeFile_ok _ _ _ _ hw, readBytes_of_length b _ hb]
  -- first sequence
  have hA : update (receiveNewIcon (setIconHash s h) h b) =
      { s with
        displayIconHash := h,
        receivedIconBitmapBuffer := b,
        fs := { s.fs with
          files := filesStore s.fs.files (iconPath h) b,
          writes := s.fs.writes ++ [(iconPath h, b)] },
        availableIcons := s.availableIcons ++ [h],
        iconRenderBuffer := referenceConversion b 64 64 0x001F 0xFFFF,
        iconDirty := true,
        receivedIconHash := "" } := by
    rw [setIconHash_uncached s h hne hnc (fun e => hreq e.symm)]
    rw [receiveNewIcon_of_ne _ h b (by rw [hpend]; exact hne)]
    simp only [memcpy_full _ b _ hrb hb]
    rw [update_save_match _ hne hnc rfl]
    simp only [hwrite, hconv]
  -- second sequence
  have hB1 : update (receiveNewIcon s h b) =
      { s with
        receivedIconBitmapBuffer := b,
        fs := { s.fs with
          files := filesStore s.fs.files (iconPath h) b,
          writes := s.fs.writes ++ [(iconPath h, b)] },
        availableIcons := s.availableIcons ++ [h],
        receivedIconHash := "" } := by
    rw [receiveNewIcon_of_ne _ h b (by rw [hpend]; exact hne)]
    simp only [memcpy_full _ b _ hrb hb]
    rw [update_save_nomatch { s with receivedIconHash := h, receivedIconBitmapBuffer := b }
      hne hnc (fun e => hreq e.symm)]
    simp only [hwrite]
  have hB : setIconHash (update (receiveNewIcon s h b)) h =
      { s with
        displayIconHash := h,
        receivedIconBitmapBuffer := b,
        iconBitmapBuffer := b,
        fs := { s.fs with
          files := filesStore s.fs.files (iconPath h) b,
          writes := s.fs.writes ++ [(iconPath h, b)] },
        availableIcons := s.availableIcons ++ [h],
        iconRenderBuffer := referenceConversion b 64 64 0x001F 0xFFFF,
        iconDirty := true,
        receivedIconHash := "" } := by
    rw [hB1]
    have hex : isIconExisted
        { s with
          receivedIconBitmapBuffer := b,
          fs := { s.fs with
            files := filesStore s.fs.files (iconPath h) b,
            writes := s.fs.writes ++ [(iconPath h, b)] },
          availableIcons := s.availableIcons ++ [h],
          receivedIconHash := "" } h = true := by
      rw [isIconExisted_iff]
      exact List.mem_append_right _ (List.mem_singleton_self _)
    rw [setIconHash_cached_state _ h hne hex (fun e => hreq e.symm)]
    have hdrop : List.drop b.length s.iconBitmapBuffer = [] :=
      List.drop_eq_nil_of_le (by omega)
    have hread : readFile
        { s.fs with
          files := filesStore s.fs.files (iconPath h) b,
          writes := s.fs.writes ++ [(iconPath h, b)] }
        (iconPath h) s.iconBitmapBuffer ICON_BITMAP_BUFFER_SIZE = (b.length, b) := by
      rw [readFile_found
        { s.fs with
          files := filesStore s.fs.files (iconPath h) b,
          writes := s.fs.writes ++ [(iconPath h, b)] }
        (iconPath h) s.iconBitmapBuffer b ICON_BITMAP_BUFFER_SIZE hr
        (filesLookup_filesStore _ _ _) (Nat.le_of_eq hb), hdrop, List.append_nil]
    simp only [hread, hconv]
  rw [hA, hB]
  simp only [hcount, filesLookup_filesStore, and_self]

/-- C23 witness: from the state in which `xyz` is requested, the icon `abc` is
requested and delivered in either order. -/
theorem C23_request_and_delivery_commute_witness :
    isIconExisted otherRequestedState "abc" = false ∧
    otherRequestedState.displayIconHash ≠ "abc" ∧
    (update (receiveNewIcon (setIconHash otherRequestedState "abc") "abc" sampleBitmap)).iconRenderBuffer
      = referenceConversion sampleBitmap 64 64 0x001F 0xFFFF ∧
    (setIconHash (update (receiveNewIcon otherRequestedState "abc" sampleBitmap)) "abc").iconRenderBuffer
      = referenceConversion sampleBitmap 64 64 0x001F 0xFFFF ∧
    setIconHash (update (receiveNewIcon otherRequestedState "abc" sampleBitmap)) "abc" =
      { update (receiveNewIcon (setIconHash otherRequestedState "abc") "abc" sampleBitmap) with
        iconBitmapBuffer := sampleBitmap } :=
  have w := C23_request_and_delivery_commute otherRequestedState "abc" sampleBitmap
    (by decide) sampleBitmap_length (by decide) rfl (by decide)
    ⟨List.length_replicate 512 0, List.length_replicate 512 0, List.length_replicate 4096 0⟩
    rfl rfl
  ⟨by decide, by decide, w.2.2.1, w.2.2.2.1, w.2.2.2.2.2.2.2.2.2.2.2.2⟩
